import Mathlib

set_option maxRecDepth 1000000

/- Formal model of oncorelib (src/oncorelib/core.py), a thin client library
   for the OnCore SOAP API.  Python values are modelled by an explicit value
   type; effects that leave the process (HTTP POST) are modelled by outcome
   datatypes that record what would be sent, so that "no network call is
   made" is expressible as a constructor of the outcome. -/

namespace Oncorelib

/-- Model of the Python values that appear in the modelled code paths:
unicode strings, integers, lists, dicts (association lists in document
order, as produced by `xmltodict.parse`), and `None`. -/
inductive PyVal where
  | pstr : String → PyVal
  | pint : Int → PyVal
  | plist : List PyVal → PyVal
  | pdict : List (String × PyVal) → PyVal
  | pnone : PyVal

/-- The Python exceptions arising in the modelled code paths. -/
inductive PyErr where
  | keyError : PyErr
  | typeError : PyErr
deriving DecidableEq

/-- Python subscription `v[k]` with a string key: succeeds on a dict that
has the key, raises `KeyError` on a dict without it, and raises `TypeError`
when `v` is not a dict. -/
def pyIndex (v : PyVal) (k : String) : Except PyErr PyVal :=
  match v with
  | .pdict kvs =>
    match kvs.lookup k with
    | some x => .ok x
    | none => .error .keyError
  | _ => .error .typeError

/-- Outcome of `_call` (core.py lines 13-35), up to the point where the
request leaves the process: either the `TypeError` raised by the type check,
or an HTTP POST performed with the given XML text.  The network response is
outside the model. -/
inductive CallOutcome where
  | typeErr : CallOutcome
  | posted : String → CallOutcome
deriving DecidableEq

/-- `_call` (core.py lines 24-29): `if type(xml) != unicode: raise TypeError`
guards the `requests.post`; only a unicode string reaches the POST. -/
def _call (xml : PyVal) : CallOutcome :=
  match xml with
  | .pstr s => .posted s
  | _ => .typeErr

/-- `_extract_subj_data_elem` (core.py lines 72-76): navigate the fixed key
path structured-data / soap:Envelope / soap:Body / ns7:Subject and then read
`element`; any failing subscription propagates its exception. -/
def _extract_subj_data_elem (subject_data : PyVal) (element : String) :
    Except PyErr PyVal :=
  (pyIndex subject_data "structured-data").bind (fun a =>
    (pyIndex a "soap:Envelope").bind (fun b =>
      (pyIndex b "soap:Body").bind (fun c =>
        (pyIndex c "ns7:Subject").bind (fun d =>
          pyIndex d element))))

/-- Python `v != u'true'`: false exactly when `v` is the unicode string
`true`; a value of any other type is unequal to a string. -/
def neqTrueText : PyVal → Bool
  | .pstr s => decide (s ≠ "true")
  | _ => true

/-- `subject_record_exists` (core.py lines 78-87): reads the `@xsi:nil`
attribute of the subject element, returns `nil_flag != u'true'`, and turns a
`KeyError` anywhere along the path into `True`.  Other exceptions
(`TypeError` from subscripting a non-dict) are not caught. -/
def subject_record_exists (subject_data : PyVal) : Except PyErr Bool :=
  match _extract_subj_data_elem subject_data "@xsi:nil" with
  | .ok nil_flag => .ok (neqTrueText nil_flag)
  | .error .keyError => .ok true
  | .error .typeError => .error .typeError

/-- `extract_primary_identifier` (core.py line 89-90). -/
def extract_primary_identifier (subject_data : PyVal) : Except PyErr PyVal :=
  _extract_subj_data_elem subject_data "PrimaryIdentifier"

/-- `extract_subject_num` (core.py line 92-93). -/
def extract_subject_num (subject_data : PyVal) : Except PyErr PyVal :=
  _extract_subj_data_elem subject_data "SubjectNo"

/-- `extract_first_name` (core.py line 95-96). -/
def extract_first_name (subject_data : PyVal) : Except PyErr PyVal :=
  _extract_subj_data_elem subject_data "FirstName"

/-- `extract_last_name` (core.py line 98-99). -/
def extract_last_name (subject_data : PyVal) : Except PyErr PyVal :=
  _extract_subj_data_elem subject_data "LastName"

/-- `extract_birthdate` (core.py line 101-102). -/
def extract_birthdate (subject_data : PyVal) : Except PyErr PyVal :=
  _extract_subj_data_elem subject_data "BirthDate"

/-- `extract_gender` (core.py line 104-105). -/
def extract_gender (subject_data : PyVal) : Except PyErr PyVal :=
  _extract_subj_data_elem subject_data "Gender"

/-- `extract_races` (core.py lines 107-111): wraps a unicode `Race` value in
a one-element list (`type(rslt) == unicode`), anything else is returned
unchanged. -/
def extract_races (subject_data : PyVal) : Except PyErr PyVal :=
  match _extract_subj_data_elem subject_data "Race" with
  | .ok rslt =>
    match rslt with
    | .pstr s => .ok (.plist [.pstr s])
    | other => .ok other
  | .error e => .error e

/-- `extract_ethnicity` (core.py line 113-114). -/
def extract_ethnicity (subject_data : PyVal) : Except PyErr PyVal :=
  _extract_subj_data_elem subject_data "Ethnicity"

/-- `prep_subject_data` (core.py lines 128-143): builds the standardized
flat map `dict(zip(keys, [...]))`.  The value expressions are evaluated left
to right; a raising accessor propagates its exception. -/
def prep_subject_data (subject_data : PyVal) : Except PyErr PyVal :=
  (extract_primary_identifier subject_data).bind (fun pid =>
    (extract_last_name subject_data).bind (fun ln =>
      (extract_first_name subject_data).bind (fun fn =>
        (extract_birthdate subject_data).bind (fun bd =>
          (extract_gender subject_data).bind (fun gd =>
            (extract_races subject_data).bind (fun rc =>
              (extract_ethnicity subject_data).bind (fun eth =>
                .ok (.pdict [("primary-identifier", pid),
                             ("last-name", ln),
                             ("first-name", fn),
                             ("birthdate", bd),
                             ("gender", gd),
                             ("races", rc),
                             ("ethnicity", eth)]))))))))

/- ---------------------------------------------------------------------
   Registration (core.py lines 119-207)
   --------------------------------------------------------------------- -/

/-- The values a caller places in a registration data dict: unicode strings,
lists of strings (for `races`), or `None`. -/
inductive Value where
  | vstr : String → Value
  | vlist : List String → Value
  | vnone : Value
deriving DecidableEq

/-- Python truthiness of a registration value (and of `None` for a missing
key): a string is truthy iff non-empty, a list iff non-empty, `None` never. -/
def truthy : Value → Bool
  | .vstr s => decide (s ≠ "")
  | .vlist l => decide (l ≠ [])
  | .vnone => false

/-- A registration data mapping: a Python dict modelled as an association
list with first-match lookup. -/
def RegData := List (String × Value)

/-- Python `reg_data.get(k)`: `none` when the key is absent. -/
def dictGet (rd : RegData) (k : String) : Option Value :=
  List.lookup k rd

/-- The required keys of `verify_reg_data` (core.py lines 123-125), in
source order. -/
def requiredRegKeys : List String :=
  ["primary-identifier", "context", "study-site", "protocol-num",
   "last-name", "first-name", "birthdate", "gender", "races",
   "ethnicity"]

/-- `verify_reg_data` (core.py lines 119-126):
`all(map(lambda k: reg_data.get(k), keys))` — every required key present
with a truthy value. -/
def verify_reg_data (rd : RegData) : Bool :=
  requiredRegKeys.all (fun k =>
    match dictGet rd k with
    | some v => truthy v
    | none => false)

/-- The single-quote character, needed to render Python 2 `repr` text. -/
def sq : String := String.singleton (Char.ofNat 39)

/-- Python 2 `u'%s' %` conversion of a value, as `Template.substitute`
applies it to each substituted field.  A unicode string passes through
unchanged; a list is rendered with its `repr` (shown here for lists of
plain unicode strings, the only list shape the data model admits); `None`
renders as `None`.  Under a validated mapping only the string and list
cases are reachable for substituted fields. -/
def strOfValue : Value → String
  | .vstr s => s
  | .vlist l =>
    "[" ++ String.intercalate ", " (l.map (fun s => "u" ++ sq ++ s ++ sq)) ++ "]"
  | .vnone => "None"

/-- The text substituted for a scalar registration field `reg_data[k]`.
A validated mapping has every required key present, so the `.vnone` default
for a missing key is unreachable there (Python would raise `KeyError`). -/
def fieldText (rd : RegData) (k : String) : String :=
  strOfValue ((dictGet rd k).getD .vnone)

/-- The list Python iterates over for `reg_data['races']` in the `reduce`:
a list iterates its elements and a unicode string iterates its characters
(each a one-character string).  `None` would raise `TypeError` in Python,
but a `None` value is falsy and therefore never passes `verify_reg_data`,
which guards the only call site. -/
def iterValue : Value → List String
  | .vstr s => s.data.map (fun c => String.singleton c)
  | .vlist l => l
  | .vnone => []

/-- The races list the registration builder iterates over. -/
def racesList (rd : RegData) : List String :=
  iterValue ((dictGet rd "races").getD .vnone)

/-- `race_elements` (core.py lines 164-166):
`reduce(lambda xml, race: xml + u'<Race>' + race + u'</Race>', races, '')`. -/
def race_elements (races : List String) : String :=
  races.foldl (fun xml race => xml ++ "<Race>" ++ race ++ "</Race>") ""

/-- Python truthiness of the optional `subject_num` argument (a text value
or `None`): `if subject_num` is false for `None` and for the empty string. -/
def truthyOptStr : Option String → Bool
  | some s => decide (s ≠ "")
  | none => false

/-- The operation name for an existing subject record. -/
def existOpS : String := "ProtocolExistingSubjectRegistrationData"

/-- The operation name that creates a new subject record. -/
def newOpS : String := "ProtocolNewSubjectRegistrationData"

/-- `op_element` (core.py lines 159-160). -/
def opElement (subject_num : Option String) : String :=
  if truthyOptStr subject_num then existOpS else newOpS

/-- `subject_num_element` (core.py lines 162-163); `unicode(subject_num)` is
the identity on a text value. -/
def subjectNumElement (subject_num : Option String) : String :=
  if truthyOptStr subject_num then
    "<SubjectNo>" ++ (subject_num.getD "") ++ "</SubjectNo>"
  else ""

/- The registration template (core.py lines 167-193), cut at the `$NAME`
placeholders.  `Template.substitute` makes a single pass over the template,
so the substituted document is exactly the concatenation of these literal
pieces with the substituted texts in between. -/

/-- Template text before `$OP_ELEMENT`. -/
def tpl1 : String :=
  "\n<soapenv:Envelope xmlns:soapenv=\"http://schemas.xmlsoap.org/soap/envelope/\"\n                  xmlns:sub=\"http://data.service.opas.percipenz.com/subject\">\n   <soapenv:Header/>\n   <soapenv:Body>\n      <sub:"

/-- Template text between `$OP_ELEMENT` and `$CONTEXT`. -/
def tpl2 : String :=
  ">\n         <sub:ProtocolSubjectRegistrationData>\n            <Context>"

/-- Template text between `$CONTEXT` and `$PROTOCOL_NUM`. -/
def tpl3 : String :=
  "</Context>\n            <ProtocolSubject>\n               <ProtocolNo>"

/-- Template text between `$PROTOCOL_NUM` and `$STUDY_SITE`. -/
def tpl4 : String :=
  "</ProtocolNo>\n               <StudySite>"

/-- Template text between `$STUDY_SITE` and `$PRIMARY_IDENTIFIER`. -/
def tpl5 : String :=
  "</StudySite>\n               <Subject>\n                  <PrimaryIdentifier>"

/-- Template text between `$PRIMARY_IDENTIFIER` and `$SUBJECT_NUM_ELEMENT`. -/
def tpl6 : String :=
  "</PrimaryIdentifier>\n                  "

/-- Template text between `$SUBJECT_NUM_ELEMENT` and `$RACE_ELEMENTS`. -/
def tpl7 : String :=
  "\n                  "

/-- Template text between `$RACE_ELEMENTS` and `$LAST_NAME`. -/
def tpl8 : String :=
  "\n                  <LastName>"

/-- Template text between `$LAST_NAME` and `$FIRST_NAME`. -/
def tpl9 : String :=
  "</LastName>\n                  <FirstName>"

/-- Template text between `$FIRST_NAME` and `$BIRTHDATE`. -/
def tpl10 : String :=
  "</FirstName>\n                  <BirthDate>"

/-- Template text between `$BIRTHDATE` and `$GENDER`. -/
def tpl11 : String :=
  "</BirthDate>\n                  <Gender>"

/-- Template text between `$GENDER` and `$ETHNICITY`. -/
def tpl12 : String :=
  "</Gender>\n                  <Ethnicity>"

/-- Template text between `$ETHNICITY` and the second `$OP_ELEMENT`. -/
def tpl13 : String :=
  "</Ethnicity>\n               </Subject>\n            </ProtocolSubject>\n         </sub:ProtocolSubjectRegistrationData>\n      </sub:"

/-- Template text after the second `$OP_ELEMENT`. -/
def tpl14 : String :=
  ">\n   </soapenv:Body>\n</soapenv:Envelope>\n      "

/-- `Template.substitute` (core.py lines 194-205) on the registration
template: the literal pieces with the substituted texts in between. -/
def regTemplateSubst (op ctx prot site pid subjEl raceEls ln fn bd gd eth :
    String) : String :=
  tpl1 ++ op ++ tpl2 ++ ctx ++ tpl3 ++ prot ++ tpl4 ++ site ++ tpl5 ++ pid ++
  tpl6 ++ subjEl ++ tpl7 ++ raceEls ++ tpl8 ++ ln ++ tpl9 ++ fn ++ tpl10 ++
  bd ++ tpl11 ++ gd ++ tpl12 ++ eth ++ tpl13 ++ op ++ tpl14

/-- The `prepped` XML document of `register_subject_to_protocol`
(core.py lines 159-205), for a mapping that passed validation. -/
def prepped (rd : RegData) (subject_num : Option String) : String :=
  regTemplateSubst (opElement subject_num)
    (fieldText rd "context")
    (fieldText rd "protocol-num")
    (fieldText rd "study-site")
    (fieldText rd "primary-identifier")
    (subjectNumElement subject_num)
    (race_elements (racesList rd))
    (fieldText rd "last-name")
    (fieldText rd "first-name")
    (fieldText rd "birthdate")
    (fieldText rd "gender")
    (fieldText rd "ethnicity")

/-- Outcome of `register_subject_to_protocol`: the `ValueError` raised
before any XML is built and before any network activity, or the built XML
returned to the caller (`xml_only`), or the built XML handed to `_call` for
the HTTP POST. -/
inductive RegOutcome where
  | valueError : RegOutcome
  | xmlOnly : String → RegOutcome
  | called : String → RegOutcome
deriving DecidableEq

/-- `register_subject_to_protocol` (core.py lines 145-207).  The `spec`
argument (credentials) is only forwarded to `_call` and does not affect
which outcome is reached or the document text, so it is not a parameter of
the model. -/
def register_subject_to_protocol (rd : RegData) (subject_num : Option String)
    (xml_only : Bool) : RegOutcome :=
  if verify_reg_data rd then
    if xml_only then .xmlOnly (prepped rd subject_num)
    else .called (prepped rd subject_num)
  else .valueError

/- ---------------------------------------------------------------------
   Substring occurrences: the measuring tool used to state which XML
   elements a built document contains.
   --------------------------------------------------------------------- -/

/-- `prefixB p s`: `p` is a prefix of `s` (character lists). -/
def prefixB : List Char → List Char → Bool
  | [], _ => true
  | _ :: _, [] => false
  | a :: as, b :: bs => a == b && prefixB as bs

/-- Number of positions of `s` at which the pattern `p` occurs (all
occurrences, overlapping ones included); `p` is never `[]` in use. -/
def occCount (p : List Char) : List Char → Nat
  | [] => 0
  | c :: rest => (if prefixB p (c :: rest) then 1 else 0) + occCount p rest

/-- Occurrences of the pattern string `p` in the string `s`. -/
def strOcc (p s : String) : Nat := occCount p.data s.data

/-- Position of the first occurrence of the pattern `p`, if any. -/
def firstOcc? (p : List Char) : List Char → Option Nat
  | [] => none
  | c :: rest =>
    if prefixB p (c :: rest) then some 0
    else (firstOcc? p rest).map (fun i => i + 1)

/-- Reading an element value back out of a document, the way a parser
locates it: the text between the first occurrence of the open tag and the
first following occurrence of the close tag.  On a document whose tags
occur exactly once this is the content of the element at its path. -/
def extractBetween (op cl doc : String) : Option String :=
  match firstOcc? op.data doc.data with
  | none => none
  | some i =>
    match firstOcc? cl.data (doc.data.drop (i + op.data.length)) with
    | none => none
    | some j => some (String.mk ((doc.data.drop (i + op.data.length)).take j))

/-- Last character of a character list. -/
def lastChar? : List Char → Option Char
  | [] => none
  | [c] => some c
  | _ :: c :: rest => lastChar? (c :: rest)

/-- The character-list text of the race elements for a list of races: one
`Race` element per entry, in list order.  `race_elements` produces exactly
this text (`race_elements_data` below). -/
def raceBlockL : List String → List Char
  | [] => []
  | r :: rest =>
    "<Race>".data ++ (r.data ++ ("</Race>".data ++ raceBlockL rest))

/-- Occurrences of `p` in the two `SubjectNo` tags. -/
def subjPair (p : List Char) : Nat :=
  occCount p "<SubjectNo>".data + occCount p "</SubjectNo>".data

/-- Occurrences of `p` in the two `Race` tags. -/
def racePair (p : List Char) : Nat :=
  occCount p "<Race>".data + occCount p "</Race>".data

/-- The built document contains every substituted text verbatim, without
escaping, so XML-shape statements hold only for texts that introduce no
markup of their own: this predicate says no substituted text contains `<`.
The library assumes pre-sanitized values; this predicate makes that
assumption explicit. -/
def sanitizedFields (rd : RegData) (n : Option String) : Prop :=
  '<' ∉ (fieldText rd "context").data ∧
  '<' ∉ (fieldText rd "protocol-num").data ∧
  '<' ∉ (fieldText rd "study-site").data ∧
  '<' ∉ (fieldText rd "primary-identifier").data ∧
  '<' ∉ (fieldText rd "last-name").data ∧
  '<' ∉ (fieldText rd "first-name").data ∧
  '<' ∉ (fieldText rd "birthdate").data ∧
  '<' ∉ (fieldText rd "gender").data ∧
  '<' ∉ (fieldText rd "ethnicity").data ∧
  (∀ r ∈ racesList rd, '<' ∉ r.data) ∧
  (∀ s, n = some s → '<' ∉ s.data)

/-- Occurrences of `p` inside the fixed template text (with the operation
name `opS` substituted at both of its placeholders). -/
def tagsCount (p : List Char) (opS : String) : Nat :=
  occCount p (tpl1 ++ opS ++ tpl2).data +
  (occCount p tpl3.data + (occCount p tpl4.data + (occCount p tpl5.data +
  (occCount p tpl6.data + (occCount p tpl7.data + (occCount p tpl8.data +
  (occCount p tpl9.data + (occCount p tpl10.data + (occCount p tpl11.data +
  (occCount p tpl12.data +
   occCount p (tpl13 ++ opS ++ tpl14).data))))))))))

/- ---------------------------------------------------------------------
   Concrete inputs used by witnesses and counterexamples.
   --------------------------------------------------------------------- -/

/-- A well-formed registration mapping with every required key populated. -/
def rdSane : RegData :=
  [("primary-identifier", .vstr "P1"), ("context", .vstr "CTX"),
   ("study-site", .vstr "S1"), ("protocol-num", .vstr "PR-1"),
   ("last-name", .vstr "Doe"), ("first-name", .vstr "Jo"),
   ("birthdate", .vstr "1990-01-01"), ("gender", .vstr "F"),
   ("races", .vlist ["White"]), ("ethnicity", .vstr "NH")]

/-- `rdSane` with `races` replaced by the empty list. -/
def rdRacesEmpty : RegData := ("races", Value.vlist []) :: rdSane

/-- `rdSane` with a `context` value that is itself a `SubjectNo` element
(the builder substitutes it verbatim, without escaping). -/
def rdInjSubjectNo : RegData :=
  ("context", Value.vstr "<SubjectNo>1</SubjectNo>") :: rdSane

/-- `rdSane` with a single race entry that is itself a `Race` element. -/
def rdInjRace : RegData :=
  ("races", Value.vlist ["<Race>A</Race>"]) :: rdSane

/-- `rdSane` with a `protocol-num` value that is itself a `Context`
element. -/
def rdInjContext : RegData :=
  ("protocol-num", Value.vstr "<Context>EVIL</Context>") :: rdSane

/-- `rdSane` with a `context` value that closes its own element and opens
another, so reading the `Context` element back yields only the part before
the embedded close tag. -/
def rdInjCloseTag : RegData :=
  ("context", Value.vstr "A</Context><Context>B") :: rdSane

/-- The shape of a parsed subject-lookup response (the value `_call`
returns for `get_subject_data`): the three result keys, with the parsed
XML holding a `ns7:Subject` element whose entries are `subj`. -/
def mkSubjResp (sc xmlv : PyVal) (subj : List (String × PyVal)) : PyVal :=
  .pdict [("status-code", sc), ("xml", xmlv),
          ("structured-data",
            .pdict [("soap:Envelope",
              .pdict [("soap:Body",
                .pdict [("ns7:Subject", .pdict subj)])])])]

/-- Subject-element entries of a populated lookup response, used by
witnesses. -/
def subjFieldsSane : List (String × PyVal) :=
  [("PrimaryIdentifier", .pstr "P1"), ("SubjectNo", .pstr "77"),
   ("FirstName", .pstr "Jo"), ("LastName", .pstr "Doe"),
   ("BirthDate", .pstr "1990-01-01"), ("Gender", .pstr "F"),
   ("Race", .pstr "White"), ("Ethnicity", .pstr "NH")]

/-- The same entries with a multi-valued `Race` field, as `xmltodict`
produces for repeated elements. -/
def subjFieldsRaceList : List (String × PyVal) :=
  [("PrimaryIdentifier", .pstr "P1"), ("SubjectNo", .pstr "77"),
   ("FirstName", .pstr "Jo"), ("LastName", .pstr "Doe"),
   ("BirthDate", .pstr "1990-01-01"), ("Gender", .pstr "F"),
   ("Race", .plist [.pstr "White", .pstr "Asian"]),
   ("Ethnicity", .pstr "NH")]

/-- A response whose parsed XML lacks the `soap:Envelope` element
altogether, so path navigation fails with a missing key at the first
step below `structured-data`. -/
def sdNoEnvelope : PyVal :=
  .pdict [("status-code", .pint 200), ("xml", .pstr "x"),
          ("structured-data", .pdict [])]

/- =====================================================================
   Theorems
   ===================================================================== -/

/-- On the modelled response shape, each accessor reads the subject
element's entry for its field name. -/
theorem extract_mkSubjResp (sc xmlv : PyVal) (subj : List (String × PyVal))
    (e : String) :
    _extract_subj_data_elem (mkSubjResp sc xmlv subj) e =
      pyIndex (.pdict subj) e := rfl

/-- Prepending an `@xsi:nil` attribute to the subject element does not
change what any accessor for a different field name reads. -/
theorem extract_skip_nil (sc xmlv x : PyVal) (subj : List (String × PyVal))
    (e : String) (he : (e == "@xsi:nil") = false) :
    _extract_subj_data_elem (mkSubjResp sc xmlv (("@xsi:nil", x) :: subj)) e
      = _extract_subj_data_elem (mkSubjResp sc xmlv subj) e := by
  rw [extract_mkSubjResp, extract_mkSubjResp]
  simp [pyIndex, List.lookup, he]

/-- Claim C2: `verify_reg_data` is true iff each of the ten required keys
(primary-identifier, context, study-site, protocol-num, last-name,
first-name, birthdate, gender, races, ethnicity) is present with a truthy
value (non-empty string, non-empty list, non-`None`); with all keys
present, `races = []` yields false and the same mapping with
`races = ["White"]` yields true. -/
theorem c2_verify_reg_data_truthy :
    (∀ rd : RegData, verify_reg_data rd = true ↔
      ∀ k ∈ requiredRegKeys, ∃ v, dictGet rd k = some v ∧ truthy v = true) ∧
    verify_reg_data rdRacesEmpty = false ∧
    verify_reg_data rdSane = true := by
  refine ⟨fun rd => ?_, by decide, by decide⟩
  rw [verify_reg_data, List.all_eq_true]
  constructor
  · intro h k hk
    have hh := h k hk
    cases hv : dictGet rd k with
    | none => rw [hv] at hh; exact absurd hh (by simp)
    | some v => rw [hv] at hh; exact ⟨v, rfl, hh⟩
  · intro h k hk
    obtain ⟨v, hv, ht⟩ := h k hk
    rw [hv]
    exact ht

/-- Claim C2 witness at the two concrete mappings. -/
theorem c2_verify_reg_data_truthy_witness :
    verify_reg_data rdRacesEmpty = false ∧ verify_reg_data rdSane = true :=
  ⟨c2_verify_reg_data_truthy.2.1, c2_verify_reg_data_truthy.2.2⟩

/-- Claim C3: for every mapping that fails validation,
`register_subject_to_protocol` reaches the `ValueError` outcome — raised
before any XML is built and before any network call — for every
`subject_num` and `xml_only`. -/
theorem c3_invalid_reg_data_raises (rd : RegData)
    (subject_num : Option String) (xml_only : Bool)
    (h : verify_reg_data rd = false) :
    register_subject_to_protocol rd subject_num xml_only = .valueError := by
  simp [register_subject_to_protocol, h]

/-- Claim C3 witness: the empty mapping fails validation and yields the
`ValueError` outcome under both `xml_only` modes. -/
theorem c3_invalid_reg_data_raises_witness :
    register_subject_to_protocol [] (some "7") true = .valueError ∧
    register_subject_to_protocol [] none false = .valueError :=
  ⟨c3_invalid_reg_data_raises [] (some "7") true (by decide),
   c3_invalid_reg_data_raises [] none false (by decide)⟩

/-- Claim C4: on a parsed subject-lookup response, `subject_record_exists`
returns true when the subject element has no `@xsi:nil` attribute, false
when that attribute is the text `true`, and true when it is any other
text value. -/
theorem c4_subject_record_exists_nil (sc xmlv : PyVal)
    (subj : List (String × PyVal)) :
    (List.lookup "@xsi:nil" subj = none →
      subject_record_exists (mkSubjResp sc xmlv subj) = .ok true) ∧
    (List.lookup "@xsi:nil" subj = some (.pstr "true") →
      subject_record_exists (mkSubjResp sc xmlv subj) = .ok false) ∧
    (∀ s : String, s ≠ "true" →
      List.lookup "@xsi:nil" subj = some (.pstr s) →
      subject_record_exists (mkSubjResp sc xmlv subj) = .ok true) := by
  refine ⟨fun h => ?_, fun h => ?_, fun s hs h => ?_⟩
  · simp [subject_record_exists, extract_mkSubjResp, pyIndex, h]
  · simp [subject_record_exists, extract_mkSubjResp, pyIndex, h, neqTrueText]
  · simp [subject_record_exists, extract_mkSubjResp, pyIndex, h,
          neqTrueText, hs]

/-- Claim C4 witness at the three concrete attribute situations. -/
theorem c4_subject_record_exists_nil_witness :
    subject_record_exists (mkSubjResp (.pint 200) (.pstr "x")
      subjFieldsSane) = .ok true ∧
    subject_record_exists (mkSubjResp (.pint 200) (.pstr "x")
      [("@xsi:nil", .pstr "true")]) = .ok false ∧
    subject_record_exists (mkSubjResp (.pint 200) (.pstr "x")
      [("@xsi:nil", .pstr "false")]) = .ok true :=
  ⟨(c4_subject_record_exists_nil _ _ _).1 rfl,
   (c4_subject_record_exists_nil _ _ _).2.1 rfl,
   (c4_subject_record_exists_nil _ _ _).2.2 "false" (by decide) rfl⟩

/-- Claim C6: the races accessor wraps a single text `Race` value in a
one-element list and returns a list of values unchanged, so its result is
a list in both cases. -/
theorem c6_extract_races_list (sd : PyVal) :
    (∀ s : String, _extract_subj_data_elem sd "Race" = .ok (.pstr s) →
      extract_races sd = .ok (.plist [.pstr s])) ∧
    (∀ l : List PyVal, _extract_subj_data_elem sd "Race" = .ok (.plist l) →
      extract_races sd = .ok (.plist l)) := by
  constructor <;> intro x h <;> simp [extract_races, h]

/-- Claim C6 witness: a single-text `Race` and a two-element `Race` list. -/
theorem c6_extract_races_list_witness :
    extract_races (mkSubjResp (.pint 200) (.pstr "x") subjFieldsSane)
      = .ok (.plist [.pstr "White"]) ∧
    extract_races (mkSubjResp (.pint 200) (.pstr "x") subjFieldsRaceList)
      = .ok (.plist [.pstr "White", .pstr "Asian"]) :=
  ⟨(c6_extract_races_list _).1 "White" rfl,
   (c6_extract_races_list _).2 [.pstr "White", .pstr "Asian"] rfl⟩

/-- Claim C7: `_call` raises `TypeError` — before any network activity, so
no HTTP POST happens — for every request argument that is not a unicode
text value; a text value is the only kind that reaches the POST. -/
theorem c7_call_type_check (xml : PyVal) :
    ((∀ s : String, xml ≠ .pstr s) → _call xml = .typeErr) ∧
    (∀ s : String, xml = .pstr s → _call xml = .posted s) := by
  refine ⟨fun h => ?_, fun s hs => by rw [hs]; rfl⟩
  cases xml with
  | pstr s => exact absurd rfl (h s)
  | pint n => rfl
  | plist l => rfl
  | pdict d => rfl
  | pnone => rfl

/-- Claim C7 witness: an integer argument is rejected before the POST and
a text argument is posted. -/
theorem c7_call_type_check_witness :
    _call (.pint 3) = .typeErr ∧ _call (.pstr "<a/>") = .posted "<a/>" :=
  ⟨(c7_call_type_check (.pint 3)).1 (fun _ h => by cases h),
   (c7_call_type_check (.pstr "<a/>")).2 "<a/>" rfl⟩

/-- Claim C9: `prep_subject_data` returns the flat mapping with exactly the
seven standardized keys, each value being the corresponding accessor's
result (races therefore already normalized to a list), and its result does
not depend on the `@xsi:nil` attribute that the existence check inspects. -/
theorem c9_prep_subject_data_shape :
    (∀ sd pid ln fn bd gd rc eth : PyVal,
      extract_primary_identifier sd = .ok pid →
      extract_last_name sd = .ok ln →
      extract_first_name sd = .ok fn →
      extract_birthdate sd = .ok bd →
      extract_gender sd = .ok gd →
      extract_races sd = .ok rc →
      extract_ethnicity sd = .ok eth →
      prep_subject_data sd = .ok (.pdict
        [("primary-identifier", pid), ("last-name", ln), ("first-name", fn),
         ("birthdate", bd), ("gender", gd), ("races", rc),
         ("ethnicity", eth)])) ∧
    (∀ (sc xmlv x : PyVal) (subj : List (String × PyVal)),
      prep_subject_data (mkSubjResp sc xmlv (("@xsi:nil", x) :: subj)) =
        prep_subject_data (mkSubjResp sc xmlv subj)) := by
  constructor
  · intro sd pid ln fn bd gd rc eth h1 h2 h3 h4 h5 h6 h7
    simp [prep_subject_data, h1, h2, h3, h4, h5, h6, h7, Except.bind]
  · intro sc xmlv x subj
    simp [prep_subject_data, extract_primary_identifier, extract_last_name,
          extract_first_name, extract_birthdate, extract_gender,
          extract_races, extract_ethnicity,
          extract_skip_nil sc xmlv x subj "PrimaryIdentifier" (by decide),
          extract_skip_nil sc xmlv x subj "LastName" (by decide),
          extract_skip_nil sc xmlv x subj "FirstName" (by decide),
          extract_skip_nil sc xmlv x subj "BirthDate" (by decide),
          extract_skip_nil sc xmlv x subj "Gender" (by decide),
          extract_skip_nil sc xmlv x subj "Race" (by decide),
          extract_skip_nil sc xmlv x subj "Ethnicity" (by decide)]

/-- Claim C9 witness at a populated response. -/
theorem c9_prep_subject_data_shape_witness :
    prep_subject_data (mkSubjResp (.pint 200) (.pstr "x") subjFieldsSane)
      = .ok (.pdict
        [("primary-identifier", .pstr "P1"), ("last-name", .pstr "Doe"),
         ("first-name", .pstr "Jo"), ("birthdate", .pstr "1990-01-01"),
         ("gender", .pstr "F"), ("races", .plist [.pstr "White"]),
         ("ethnicity", .pstr "NH")]) :=
  c9_prep_subject_data_shape.1 _ _ _ _ _ _ _ _
    rfl rfl rfl rfl rfl rfl rfl

/-- Claim C10: `subject_record_exists` never surfaces a `KeyError`: whenever
path navigation fails with a missing key at any step (nil attribute,
subject, body or envelope element missing), it returns true, while the
field accessors propagate the same missing-key error to the caller. -/
theorem c10_exists_check_catches_key_error (sd : PyVal) :
    subject_record_exists sd ≠ .error .keyError ∧
    (_extract_subj_data_elem sd "@xsi:nil" = .error .keyError →
      subject_record_exists sd = .ok true) ∧
    (_extract_subj_data_elem sd "FirstName" = .error .keyError →
      extract_first_name sd = .error .keyError) ∧
    (_extract_subj_data_elem sd "PrimaryIdentifier" = .error .keyError →
      extract_primary_identifier sd = .error .keyError) := by
  refine ⟨?_, fun h => by simp [subject_record_exists, h],
    fun h => h, fun h => h⟩
  cases h : _extract_subj_data_elem sd "@xsi:nil" with
  | ok v => simp [subject_record_exists, h]
  | error e => cases e <;> simp [subject_record_exists, h]

/-- Claim C10 witness: a response with no envelope element makes every
navigation fail with a missing key; the existence check still answers
true while an accessor surfaces the error. -/
theorem c10_exists_check_catches_key_error_witness :
    subject_record_exists sdNoEnvelope = .ok true ∧
    extract_first_name sdNoEnvelope = .error .keyError :=
  ⟨(c10_exists_check_catches_key_error sdNoEnvelope).2.1 rfl,
   (c10_exists_check_catches_key_error sdNoEnvelope).2.2.1 rfl⟩

/- ---------------------------------------------------------------------
   Occurrence counting lemmas
   --------------------------------------------------------------------- -/

theorem prefixB_nil (s : List Char) : prefixB [] s = true := by
  cases s <;> rfl

theorem prefixB_refl (p : List Char) : prefixB p p = true := by
  induction p with
  | nil => rfl
  | cons a as ih => simp [prefixB, ih]

theorem prefixB_append_right (p a b : List Char) (h : prefixB p a = true) :
    prefixB p (a ++ b) = true := by
  induction p generalizing a with
  | nil => exact prefixB_nil _
  | cons x xs ih =>
    cases a with
    | nil => simp [prefixB] at h
    | cons c cs =>
      rw [List.cons_append]
      simp only [prefixB, Bool.and_eq_true] at h ⊢
      exact ⟨h.1, ih cs h.2⟩

theorem prefixB_split (p a b : List Char) (h : prefixB p (a ++ b) = true) :
    prefixB p a = true ∨
      ∃ r, p = a ++ r ∧ r ≠ [] ∧ prefixB r b = true := by
  induction a generalizing p with
  | nil =>
    cases p with
    | nil => exact Or.inl rfl
    | cons x xs => exact Or.inr ⟨x :: xs, rfl, by simp, h⟩
  | cons c cs ih =>
    cases p with
    | nil => exact Or.inl (prefixB_nil _)
    | cons x xs =>
      rw [List.cons_append] at h
      simp only [prefixB, Bool.and_eq_true, beq_iff_eq] at h
      rcases ih xs h.2 with h1 | ⟨r, hr, hne, hb⟩
      · exact Or.inl (by simp [prefixB, h.1, h1])
      · exact Or.inr ⟨r, by rw [List.cons_append, ← hr, h.1], hne, hb⟩

theorem lastChar?_mem (l : List Char) (c : Char) (h : lastChar? l = some c) :
    c ∈ l := by
  induction l with
  | nil => simp [lastChar?] at h
  | cons a t ih =>
    cases t with
    | nil =>
      simp [lastChar?] at h
      simp [h]
    | cons b t2 =>
      have h2 : lastChar? (b :: t2) = some c := h
      exact List.mem_cons_of_mem a (ih h2)

theorem dropLast_append_ne (a r : List Char) (hr : r ≠ []) :
    (a ++ r).dropLast = a ++ r.dropLast := by
  induction a with
  | nil => rfl
  | cons c cs ih =>
    rw [List.cons_append]
    cases hcr : cs ++ r with
    | nil => exact absurd (List.append_eq_nil.mp hcr).2 hr
    | cons x xs =>
      rw [List.dropLast_cons₂, ← hcr, ih]
      rfl

theorem occ_append_head (p a b : List Char) (ch : Char)
    (hb : b.head? = some ch) (hch : ch ∉ p.drop 1) :
    occCount p (a ++ b) = occCount p a + occCount p b := by
  induction a with
  | nil => simp [occCount]
  | cons c cs ih =>
    have hcond : prefixB p (c :: (cs ++ b)) = prefixB p (c :: cs) := by
      cases hp : prefixB p (c :: cs) with
      | true =>
        have h := prefixB_append_right p (c :: cs) b hp
        rwa [List.cons_append] at h
      | false =>
        cases hq : prefixB p (c :: (cs ++ b)) with
        | false => rfl
        | true =>
          exfalso
          have hq2 : prefixB p ((c :: cs) ++ b) = true := by
            rwa [List.cons_append]
          rcases prefixB_split p (c :: cs) b hq2 with h1 | ⟨r, hr, hne, hrb⟩
          · rw [hp] at h1; exact Bool.noConfusion h1
          · cases r with
            | nil => exact hne rfl
            | cons y ys =>
              cases b with
              | nil => simp [prefixB] at hrb
              | cons z zs =>
                have hy : y = z := by
                  simp only [prefixB, Bool.and_eq_true, beq_iff_eq] at hrb
                  exact hrb.1
                have hz : z = ch := by
                  simp only [List.head?_cons, Option.some.injEq] at hb
                  exact hb
                apply hch
                rw [hr, List.cons_append, List.drop_one, List.tail_cons]
                rw [← hz, ← hy]
                exact List.mem_append_right cs (by simp)
    rw [List.cons_append, occCount, hcond, occCount, ih]
    omega

theorem occ_append_last (p a b : List Char) (cL : Char)
    (ha : lastChar? a = some cL) (hc : cL ∉ p.dropLast) :
    occCount p (a ++ b) = occCount p a + occCount p b := by
  induction a with
  | nil => simp [lastChar?] at ha
  | cons c cs ih =>
    have hcond : prefixB p (c :: (cs ++ b)) = prefixB p (c :: cs) := by
      cases hp : prefixB p (c :: cs) with
      | true =>
        have h := prefixB_append_right p (c :: cs) b hp
        rwa [List.cons_append] at h
      | false =>
        cases hq : prefixB p (c :: (cs ++ b)) with
        | false => rfl
        | true =>
          exfalso
          have hq2 : prefixB p ((c :: cs) ++ b) = true := by
            rwa [List.cons_append]
          rcases prefixB_split p (c :: cs) b hq2 with h1 | ⟨r, hr, hne, hrb⟩
          · rw [hp] at h1; exact Bool.noConfusion h1
          · apply hc
            rw [hr, dropLast_append_ne _ _ hne]
            exact List.mem_append_left _ (lastChar?_mem _ _ ha)
    have hsplit : occCount p (cs ++ b) = occCount p cs + occCount p b := by
      cases cs with
      | nil => simp [occCount]
      | cons x xs => exact ih ha
    rw [List.cons_append, occCount, hcond, occCount, hsplit]
    omega

theorem occ_zero_of_head (p v : List Char) (c : Char)
    (hp : p.head? = some c) (hv : c ∉ v) : occCount p v = 0 := by
  induction v with
  | nil => rfl
  | cons d vs ih =>
    have hcd : c ≠ d := fun h => hv (by rw [h]; simp)
    have hvs : c ∉ vs := fun h => hv (List.mem_cons_of_mem d h)
    cases p with
    | nil => simp at hp
    | cons x xs =>
      have hx : x = c := by
        simp only [List.head?_cons, Option.some.injEq] at hp
        exact hp
      have hpre : prefixB (x :: xs) (d :: vs) = false := by
        simp [prefixB, hx, hcd]
      rw [occCount, hpre]
      simpa using ih hvs

theorem occ_pos_of_surround (q X Y : List Char) (hq : q ≠ []) :
    0 < occCount q (X ++ (q ++ Y)) := by
  induction X with
  | nil =>
    rw [List.nil_append]
    cases q with
    | nil => exact absurd rfl hq
    | cons c cs =>
      rw [List.cons_append, occCount]
      have hpre : prefixB (c :: cs) (c :: (cs ++ Y)) = true := by
        have h := prefixB_append_right (c :: cs) (c :: cs) Y (prefixB_refl _)
        rwa [List.cons_append] at h
      rw [hpre]
      simp
  | cons x xs ih =>
    rw [List.cons_append, occCount]
    exact Nat.lt_of_lt_of_le ih (Nat.le_add_left _ _)

theorem occ_step (p v l rest : List Char) (c d : Char)
    (hlh : l.head? = some c) (hc : c ∉ p.drop 1)
    (hll : lastChar? l = some d) (hd : d ∉ p.dropLast) :
    occCount p (v ++ (l ++ rest)) =
      occCount p v + (occCount p l + occCount p rest) := by
  cases l with
  | nil => simp [lastChar?] at hll
  | cons x xs =>
    have h1 : occCount p (v ++ ((x :: xs) ++ rest)) =
        occCount p v + occCount p ((x :: xs) ++ rest) :=
      occ_append_head p v ((x :: xs) ++ rest) c hlh hc
    have h2 : occCount p ((x :: xs) ++ rest) =
        occCount p (x :: xs) + occCount p rest :=
      occ_append_last p (x :: xs) rest d hll hd
    rw [h1, h2]

theorem lastChar?_append (a r : List Char) (hr : r ≠ []) :
    lastChar? (a ++ r) = lastChar? r := by
  induction a with
  | nil => rfl
  | cons c cs ih =>
    rw [List.cons_append]
    cases hcr : cs ++ r with
    | nil => exact absurd (List.append_eq_nil.mp hcr).2 hr
    | cons x xs =>
      have h1 : lastChar? (c :: x :: xs) = lastChar? (x :: xs) := rfl
      rw [h1, ← hcr, ih]

/-- The occurrence count of any pattern in an interleaving of chunks splits
into per-chunk counts, provided each boundary is guarded by a character
that cannot sit strictly inside the pattern. -/
theorem occ_chain (p A v1 l1 v2 l2 v3 l3 v4 l4 v5 l5 v6 l6 v7 l7 v8 l8 v9
    l9 v10 l10 v11 B : List Char)
    {a0 c1 d1 c2 d2 c3 d3 c4 d4 c5 d5 c6 d6 c7 d7 c8 d8 c9 d9 c10 d10 b0 :
      Char}
    (hA : lastChar? A = some a0) (ha0 : a0 ∉ p.dropLast)
    (h1h : l1.head? = some c1) (h1c : c1 ∉ p.drop 1)
    (h1l : lastChar? l1 = some d1) (h1d : d1 ∉ p.dropLast)
    (h2h : l2.head? = some c2) (h2c : c2 ∉ p.drop 1)
    (h2l : lastChar? l2 = some d2) (h2d : d2 ∉ p.dropLast)
    (h3h : l3.head? = some c3) (h3c : c3 ∉ p.drop 1)
    (h3l : lastChar? l3 = some d3) (h3d : d3 ∉ p.dropLast)
    (h4h : l4.head? = some c4) (h4c : c4 ∉ p.drop 1)
    (h4l : lastChar? l4 = some d4) (h4d : d4 ∉ p.dropLast)
    (h5h : l5.head? = some c5) (h5c : c5 ∉ p.drop 1)
    (h5l : lastChar? l5 = some d5) (h5d : d5 ∉ p.dropLast)
    (h6h : l6.head? = some c6) (h6c : c6 ∉ p.drop 1)
    (h6l : lastChar? l6 = some d6) (h6d : d6 ∉ p.dropLast)
    (h7h : l7.head? = some c7) (h7c : c7 ∉ p.drop 1)
    (h7l : lastChar? l7 = some d7) (h7d : d7 ∉ p.dropLast)
    (h8h : l8.head? = some c8) (h8c : c8 ∉ p.drop 1)
    (h8l : lastChar? l8 = some d8) (h8d : d8 ∉ p.dropLast)
    (h9h : l9.head? = some c9) (h9c : c9 ∉ p.drop 1)
    (h9l : lastChar? l9 = some d9) (h9d : d9 ∉ p.dropLast)
    (h10h : l10.head? = some c10) (h10c : c10 ∉ p.drop 1)
    (h10l : lastChar? l10 = some d10) (h10d : d10 ∉ p.dropLast)
    (hB : B.head? = some b0) (hb0 : b0 ∉ p.drop 1) :
    occCount p (A ++ (v1 ++ (l1 ++ (v2 ++ (l2 ++ (v3 ++ (l3 ++ (v4 ++ (l4 ++
      (v5 ++ (l5 ++ (v6 ++ (l6 ++ (v7 ++ (l7 ++ (v8 ++ (l8 ++ (v9 ++ (l9 ++
      (v10 ++ (l10 ++ (v11 ++ B)))))))))))))))))))))) =
    occCount p A + (occCount p v1 + (occCount p l1 + (occCount p v2 +
      (occCount p l2 + (occCount p v3 + (occCount p l3 + (occCount p v4 +
      (occCount p l4 + (occCount p v5 + (occCount p l5 + (occCount p v6 +
      (occCount p l6 + (occCount p v7 + (occCount p l7 + (occCount p v8 +
      (occCount p l8 + (occCount p v9 + (occCount p l9 + (occCount p v10 +
      (occCount p l10 + (occCount p v11 +
        occCount p B))))))))))))))))))))) := by
  rw [occ_append_last p A _ _ hA ha0,
      occ_step p v1 l1 _ _ _ h1h h1c h1l h1d,
      occ_step p v2 l2 _ _ _ h2h h2c h2l h2d,
      occ_step p v3 l3 _ _ _ h3h h3c h3l h3d,
      occ_step p v4 l4 _ _ _ h4h h4c h4l h4d,
      occ_step p v5 l5 _ _ _ h5h h5c h5l h5d,
      occ_step p v6 l6 _ _ _ h6h h6c h6l h6d,
      occ_step p v7 l7 _ _ _ h7h h7c h7l h7d,
      occ_step p v8 l8 _ _ _ h8h h8c h8l h8d,
      occ_step p v9 l9 _ _ _ h9h h9c h9l h9d,
      occ_step p v10 l10 _ _ _ h10h h10c h10l h10d,
      occ_append_head p v11 B _ hB hb0]

/-- The character text of a built registration document, as the chain of
its template pieces and substituted texts. -/
theorem prepped_data (rd : RegData) (n : Option String) :
    (prepped rd n).data =
      (tpl1 ++ opElement n ++ tpl2).data ++
      ((fieldText rd "context").data ++ (tpl3.data ++
      ((fieldText rd "protocol-num").data ++ (tpl4.data ++
      ((fieldText rd "study-site").data ++ (tpl5.data ++
      ((fieldText rd "primary-identifier").data ++ (tpl6.data ++
      ((subjectNumElement n).data ++ (tpl7.data ++
      ((race_elements (racesList rd)).data ++ (tpl8.data ++
      ((fieldText rd "last-name").data ++ (tpl9.data ++
      ((fieldText rd "first-name").data ++ (tpl10.data ++
      ((fieldText rd "birthdate").data ++ (tpl11.data ++
      ((fieldText rd "gender").data ++ (tpl12.data ++
      ((fieldText rd "ethnicity").data ++
        (tpl13 ++ opElement n ++ tpl14).data))))))))))))))))))))) := by
  simp [prepped, regTemplateSubst, String.data_append, List.append_assoc]

/-- Splitting the occurrence count of a pattern in a built document into
per-chunk counts.  The pattern must not contain `<` or a newline after its
first character, nor `>` or a space before its last character — true of
every XML tag pattern of interest. -/
theorem occ_prepped (p : List Char) (rd : RegData) (n : Option String)
    (hp1 : '<' ∉ p.drop 1) (hp2 : '\n' ∉ p.drop 1)
    (hp3 : '>' ∉ p.dropLast) (hp4 : ' ' ∉ p.dropLast) :
    occCount p (prepped rd n).data =
      occCount p (tpl1 ++ opElement n ++ tpl2).data +
      (occCount p (fieldText rd "context").data + (occCount p tpl3.data +
      (occCount p (fieldText rd "protocol-num").data +
      (occCount p tpl4.data +
      (occCount p (fieldText rd "study-site").data +
      (occCount p tpl5.data +
      (occCount p (fieldText rd "primary-identifier").data +
      (occCount p tpl6.data +
      (occCount p (subjectNumElement n).data +
      (occCount p tpl7.data +
      (occCount p (race_elements (racesList rd)).data +
      (occCount p tpl8.data +
      (occCount p (fieldText rd "last-name").data +
      (occCount p tpl9.data +
      (occCount p (fieldText rd "first-name").data +
      (occCount p tpl10.data +
      (occCount p (fieldText rd "birthdate").data +
      (occCount p tpl11.data +
      (occCount p (fieldText rd "gender").data +
      (occCount p tpl12.data +
      (occCount p (fieldText rd "ethnicity").data +
        occCount p (tpl13 ++ opElement n ++ tpl14).data))))))))))))))))))))) := by
  have hA : lastChar? (tpl1 ++ opElement n ++ tpl2).data = some '>' := by
    rw [String.data_append, lastChar?_append _ _ (by decide)]
    decide
  have hB : (tpl13 ++ opElement n ++ tpl14).data.head? = some '<' := by
    rw [String.data_append, String.data_append]
    rfl
  rw [prepped_data]
  exact occ_chain p _ _ _ _ _ _ _ _ _ _ _ _ _ _ _ _ _ _ _ _ _ _ _
    hA hp3
    (by rfl) hp1 (by decide) hp3
    (by rfl) hp1 (by decide) hp3
    (by rfl) hp1 (by decide) hp3
    (by rfl) hp1 (by decide) hp4
    (by rfl) hp2 (by decide) hp4
    (by rfl) hp2 (by decide) hp3
    (by rfl) hp1 (by decide) hp3
    (by rfl) hp1 (by decide) hp3
    (by rfl) hp1 (by decide) hp3
    (by rfl) hp1 (by decide) hp3
    hB hp1

theorem opElement_new (n : Option String) (hn : truthyOptStr n = false) :
    opElement n = newOpS := by
  simp [opElement, hn]

theorem opElement_existing (n : Option String)
    (hn : truthyOptStr n = true) : opElement n = existOpS := by
  simp [opElement, hn]

theorem subjectNumElement_new (n : Option String)
    (hn : truthyOptStr n = false) : subjectNumElement n = "" := by
  simp [subjectNumElement, hn]

theorem subjectNumElement_existing (s : String) (hs : s ≠ "") :
    subjectNumElement (some s) = "<SubjectNo>" ++ s ++ "</SubjectNo>" := by
  simp [subjectNumElement, truthyOptStr, hs]

/-- Occurrences of a tag pattern in the subject-number element text. -/
theorem occ_subjectNumElement (p : List Char) (n : Option String)
    (hp0 : p.head? = some '<') (hp1 : '<' ∉ p.drop 1)
    (hp3 : '>' ∉ p.dropLast)
    (hn : ∀ s, n = some s → '<' ∉ s.data) :
    occCount p (subjectNumElement n).data =
      if truthyOptStr n then subjPair p else 0 := by
  cases htn : truthyOptStr n with
  | false =>
    rw [subjectNumElement_new n htn]
    rfl
  | true =>
    cases n with
    | none => simp [truthyOptStr] at htn
    | some s =>
      have hs : s ≠ "" := by
        by_contra hc
        rw [hc] at htn
        simp [truthyOptStr] at htn
      rw [subjectNumElement_existing s hs, if_pos rfl]
      have hd : ("<SubjectNo>" ++ s ++ "</SubjectNo>").data
          = "<SubjectNo>".data ++ (s.data ++ "</SubjectNo>".data) := by
        rw [String.data_append, String.data_append, List.append_assoc]
      rw [hd,
        occ_append_last p "<SubjectNo>".data (s.data ++ "</SubjectNo>".data)
          '>' (by decide) hp3,
        occ_append_head p s.data "</SubjectNo>".data '<' (by rfl) hp1,
        occ_zero_of_head p s.data '<' hp0 (hn s rfl)]
      simp [subjPair]

theorem race_elements_data_aux (races : List String) (s : String) :
    (races.foldl
      (fun xml race => xml ++ "<Race>" ++ race ++ "</Race>") s).data
      = s.data ++ raceBlockL races := by
  induction races generalizing s with
  | nil => simp [raceBlockL]
  | cons r rest ih =>
    rw [List.foldl_cons, ih, raceBlockL]
    simp [String.data_append, List.append_assoc]

/-- `race_elements` produces exactly the per-entry, order-preserving
element text `raceBlockL`. -/
theorem race_elements_data (races : List String) :
    (race_elements races).data = raceBlockL races := by
  rw [race_elements, race_elements_data_aux]
  rfl

/-- Occurrences of a tag pattern in the race elements text: each entry
contributes the pattern occurrences of one open and one close tag. -/
theorem occ_raceBlockL (p : List Char) (races : List String)
    (hp0 : p.head? = some '<') (hp1 : '<' ∉ p.drop 1)
    (hp3 : '>' ∉ p.dropLast)
    (hr : ∀ r ∈ races, '<' ∉ r.data) :
    occCount p (raceBlockL races) = races.length * racePair p := by
  induction races with
  | nil => simp [raceBlockL, occCount]
  | cons r rest ih =>
    rw [raceBlockL,
      occ_append_last p "<Race>".data
        (r.data ++ ("</Race>".data ++ raceBlockL rest)) '>' (by decide) hp3,
      occ_append_head p r.data ("</Race>".data ++ raceBlockL rest)
        '<' (by rfl) hp1,
      occ_append_last p "</Race>".data (raceBlockL rest) '>'
        (by decide) hp3,
      occ_zero_of_head p r.data '<' hp0 (hr r (by simp)),
      ih (fun x hx => hr x (by simp [hx]))]
    simp [racePair, List.length_cons]
    ring

/-- A validated mapping always yields a non-empty races list: the `races`
value is truthy, and both a non-empty string (iterated by characters) and a
non-empty list yield entries. -/
theorem racesList_ne_nil (rd : RegData) (hv : verify_reg_data rd = true) :
    racesList rd ≠ [] := by
  rw [verify_reg_data] at hv
  have h := List.all_eq_true.mp hv "races" (by decide)
  cases hr : dictGet rd "races" with
  | none => rw [hr] at h; simp at h
  | some v =>
    rw [hr] at h
    rw [racesList, hr]
    cases v with
    | vstr s =>
      have hs : s ≠ "" := by simpa [truthy] using h
      have hdata : s.data ≠ [] := by
        intro hc
        exact hs (String.ext (by rw [hc]))
      simpa [iterValue] using hdata
    | vlist l =>
      have hl : l ≠ [] := by simpa [truthy] using h
      simpa [iterValue] using hl
    | vnone => simp [truthy] at h

/-- When every substituted text is free of `<`, the occurrences of a tag
pattern in a built document come from the fixed template (with the chosen
operation name), the subject-number element when present, and one pair of
`Race` tags per races entry. -/
theorem occ_prepped_tags (p : List Char) (rd : RegData) (n : Option String)
    (hp0 : p.head? = some '<')
    (hp1 : '<' ∉ p.drop 1) (hp2 : '\n' ∉ p.drop 1)
    (hp3 : '>' ∉ p.dropLast) (hp4 : ' ' ∉ p.dropLast)
    (hS : sanitizedFields rd n) :
    occCount p (prepped rd n).data =
      tagsCount p (opElement n) +
      (if truthyOptStr n then subjPair p else 0) +
      (racesList rd).length * racePair p := by
  obtain ⟨hfc, hfp, hfs, hfi, hfl, hff, hfb, hfg, hfe, hr, hn⟩ := hS
  rw [occ_prepped p rd n hp1 hp2 hp3 hp4,
    occ_zero_of_head p _ '<' hp0 hfc,
    occ_zero_of_head p _ '<' hp0 hfp,
    occ_zero_of_head p _ '<' hp0 hfs,
    occ_zero_of_head p _ '<' hp0 hfi,
    occ_zero_of_head p _ '<' hp0 hfl,
    occ_zero_of_head p _ '<' hp0 hff,
    occ_zero_of_head p _ '<' hp0 hfb,
    occ_zero_of_head p _ '<' hp0 hfg,
    occ_zero_of_head p _ '<' hp0 hfe,
    occ_subjectNumElement p n hp0 hp1 hp3 hn,
    race_elements_data, occ_raceBlockL p _ hp0 hp1 hp3 hr,
    tagsCount]
  ring

/-- The occurrence count of a tag pattern whose per-piece contributions do
not depend on which operation name was chosen. -/
theorem occ_prepped_const (p : List Char) (rd : RegData) (n : Option String)
    (hp0 : p.head? = some '<')
    (hp1 : '<' ∉ p.drop 1) (hp2 : '\n' ∉ p.drop 1)
    (hp3 : '>' ∉ p.dropLast) (hp4 : ' ' ∉ p.dropLast)
    (hS : sanitizedFields rd n) (kTag kSubj kRace : Nat)
    (eNew : tagsCount p newOpS = kTag)
    (eExist : tagsCount p existOpS = kTag)
    (eSubj : subjPair p = kSubj) (eRace : racePair p = kRace) :
    occCount p (prepped rd n).data =
      kTag + (if truthyOptStr n then kSubj else 0) +
      (racesList rd).length * kRace := by
  rw [occ_prepped_tags p rd n hp0 hp1 hp2 hp3 hp4 hS, eSubj, eRace]
  cases htn : truthyOptStr n with
  | false => rw [opElement_new n htn, eNew]
  | true => rw [opElement_existing n htn, eExist]

theorem occ_le_append_left (q a s : List Char) :
    occCount q s ≤ occCount q (a ++ s) := by
  induction a with
  | nil => exact Nat.le_refl _
  | cons c cs ih =>
    rw [List.cons_append, occCount]
    exact Nat.le_trans ih (Nat.le_add_left _ _)

theorem occ_pos_self_append (q R : List Char) (hq : q ≠ []) :
    0 < occCount q (q ++ R) := by
  have h := occ_pos_of_surround q [] R hq
  rwa [List.nil_append] at h

theorem wrapped_ne_nil (a b s : String) (ha : a.data ≠ []) :
    (a ++ s ++ b).data ≠ [] := by
  rw [String.data_append, String.data_append]
  intro h
  exact ha (List.append_eq_nil.mp (List.append_eq_nil.mp h).1).1

/-- A wrapped field value occurs in any text that starts with the open
tag, the value, the close tag, and arbitrary following text. -/
theorem occ_pos_field (op cl f : String) (suf R : List Char)
    (hop : op.data ≠ []) :
    0 < occCount (op.data ++ (f.data ++ cl.data))
        (op.data ++ (f.data ++ (cl.data ++ (suf ++ R)))) := by
  have h1 : op.data ++ (f.data ++ (cl.data ++ (suf ++ R)))
      = (op.data ++ (f.data ++ cl.data)) ++ (suf ++ R) := by
    simp [List.append_assoc]
  rw [h1]
  apply occ_pos_self_append
  intro h
  exact hop (List.append_eq_nil.mp h).1

theorem prefixB_exists (q : List Char) (s : List Char)
    (h : prefixB q s = true) : ∃ t, s = q ++ t := by
  induction q generalizing s with
  | nil => exact ⟨s, rfl⟩
  | cons c cs ih =>
    cases s with
    | nil => simp [prefixB] at h
    | cons d t =>
      simp only [prefixB, Bool.and_eq_true, beq_iff_eq] at h
      obtain ⟨u, hu⟩ := ih t h.2
      exact ⟨u, by rw [List.cons_append, ← h.1, hu]⟩

theorem occ_pos_split (q s : List Char) (h : 0 < occCount q s) :
    ∃ X Y, s = X ++ (q ++ Y) := by
  induction s with
  | nil => simp [occCount] at h
  | cons c rest ih =>
    cases hpre : prefixB q (c :: rest) with
    | true =>
      obtain ⟨t, ht⟩ := prefixB_exists q _ hpre
      exact ⟨[], t, by rw [List.nil_append]; exact ht⟩
    | false =>
      rw [occCount, hpre] at h
      simp at h
      obtain ⟨X, Y, hXY⟩ := ih h
      exact ⟨c :: X, Y, by rw [List.cons_append, hXY]⟩

/-- The first occurrence of a pattern that occurs exactly once, in a text
that visibly carries it, is the visible one. -/
theorem firstOcc_of_unique (p A B : List Char) (hp : p ≠ [])
    (hcount : occCount p (A ++ (p ++ B)) = 1) :
    firstOcc? p (A ++ (p ++ B)) = some A.length := by
  induction A with
  | nil =>
    rw [List.nil_append]
    cases p with
    | nil => exact absurd rfl hp
    | cons c cs =>
      have hpre : prefixB (c :: cs) ((c :: cs) ++ B) = true :=
        prefixB_append_right _ _ _ (prefixB_refl _)
      rw [List.cons_append] at hpre
      rw [List.cons_append]
      simp [firstOcc?, hpre]
  | cons c A' ih =>
    have hpos : 0 < occCount p (A' ++ (p ++ B)) := occ_pos_of_surround p A' B hp
    rw [List.cons_append, occCount] at hcount
    cases hpre : prefixB p (c :: (A' ++ (p ++ B))) with
    | true => rw [hpre] at hcount; simp at hcount; omega
    | false =>
      rw [hpre] at hcount
      simp at hcount
      rw [List.cons_append]
      simp [firstOcc?, hpre, ih hcount]

/-- On a document where the open and close tags each occur exactly once and
the open tag, value and close tag appear contiguously, reading the element
back yields exactly that value. -/
theorem extractBetween_of_counts (op cl f doc : String)
    (hop : op.data ≠ []) (hcl : cl.data ≠ [])
    (hopc : occCount op.data doc.data = 1)
    (hclc : occCount cl.data doc.data = 1)
    (hcont : 0 < occCount (op ++ f ++ cl).data doc.data) :
    extractBetween op cl doc = some f := by
  obtain ⟨X, Y, hXY⟩ := occ_pos_split _ _ hcont
  have hdoc : doc.data = X ++ (op.data ++ (f.data ++ (cl.data ++ Y))) := by
    rw [hXY]
    simp [String.data_append, List.append_assoc]
  have h1 : firstOcc? op.data doc.data = some X.length := by
    rw [hdoc]
    refine firstOcc_of_unique op.data X (f.data ++ (cl.data ++ Y)) hop ?_
    rw [← hdoc]
    exact hopc
  have h2 : doc.data.drop (X.length + op.data.length)
      = f.data ++ (cl.data ++ Y) := by
    rw [hdoc, ← List.append_assoc, ← List.length_append]
    exact List.drop_left _ _
  have h3 : occCount cl.data (f.data ++ (cl.data ++ Y)) = 1 := by
    have hle : occCount cl.data (f.data ++ (cl.data ++ Y))
        ≤ occCount cl.data doc.data := by
      rw [hdoc]
      exact Nat.le_trans (occ_le_append_left _ _ _)
        (occ_le_append_left _ _ _)
    have hge := occ_pos_of_surround cl.data f.data Y hcl
    omega
  have h4 : firstOcc? cl.data (f.data ++ (cl.data ++ Y))
      = some f.data.length := firstOcc_of_unique cl.data f.data Y hcl h3
  simp only [extractBetween, h1]
  rw [h2, h4]
  show some (String.mk ((f.data ++ (cl.data ++ Y)).take f.data.length))
    = some f
  rw [List.take_left]

/-- Claim C1 (amended): for every registration mapping that passes
validation and whose substituted texts are pre-sanitized (contain no `<`,
as the library assumes): when `subject_num` is omitted or Python-falsy (the
empty text), the built XML uses the `ProtocolNewSubjectRegistrationData`
operation element and contains no `SubjectNo` element; when `subject_num`
is supplied and non-empty, it uses
`ProtocolExistingSubjectRegistrationData` and contains exactly one
`SubjectNo` element whose content is that subject number. -/
theorem c1_operation_element (rd : RegData) (n : Option String)
    (hv : verify_reg_data rd = true) (hS : sanitizedFields rd n) :
    register_subject_to_protocol rd n true = .xmlOnly (prepped rd n) ∧
    (truthyOptStr n = false →
      strOcc "<sub:ProtocolNewSubjectRegistrationData>" (prepped rd n) = 1 ∧
      strOcc "</sub:ProtocolNewSubjectRegistrationData>" (prepped rd n) = 1 ∧
      strOcc "<sub:ProtocolExistingSubjectRegistrationData>"
        (prepped rd n) = 0 ∧
      strOcc "</sub:ProtocolExistingSubjectRegistrationData>"
        (prepped rd n) = 0 ∧
      strOcc "<SubjectNo>" (prepped rd n) = 0 ∧
      strOcc "</SubjectNo>" (prepped rd n) = 0) ∧
    (∀ s : String, n = some s → s ≠ "" →
      strOcc "<sub:ProtocolExistingSubjectRegistrationData>"
        (prepped rd n) = 1 ∧
      strOcc "</sub:ProtocolExistingSubjectRegistrationData>"
        (prepped rd n) = 1 ∧
      strOcc "<sub:ProtocolNewSubjectRegistrationData>" (prepped rd n) = 0 ∧
      strOcc "</sub:ProtocolNewSubjectRegistrationData>" (prepped rd n) = 0 ∧
      strOcc "<SubjectNo>" (prepped rd n) = 1 ∧
      strOcc "</SubjectNo>" (prepped rd n) = 1 ∧
      0 < strOcc ("<SubjectNo>" ++ s ++ "</SubjectNo>") (prepped rd n)) := by
  refine ⟨by simp [register_subject_to_protocol, hv], fun hn0 => ?_,
    fun s hns hsne => ?_⟩
  · have k1 := occ_prepped_tags
      "<sub:ProtocolNewSubjectRegistrationData>".data rd n
      (by decide) (by decide) (by decide) (by decide) (by decide) hS
    have k2 := occ_prepped_tags
      "</sub:ProtocolNewSubjectRegistrationData>".data rd n
      (by decide) (by decide) (by decide) (by decide) (by decide) hS
    have k3 := occ_prepped_tags
      "<sub:ProtocolExistingSubjectRegistrationData>".data rd n
      (by decide) (by decide) (by decide) (by decide) (by decide) hS
    have k4 := occ_prepped_tags
      "</sub:ProtocolExistingSubjectRegistrationData>".data rd n
      (by decide) (by decide) (by decide) (by decide) (by decide) hS
    have k5 := occ_prepped_tags "<SubjectNo>".data rd n
      (by decide) (by decide) (by decide) (by decide) (by decide) hS
    have k6 := occ_prepped_tags "</SubjectNo>".data rd n
      (by decide) (by decide) (by decide) (by decide) (by decide) hS
    rw [opElement_new n hn0, hn0] at k1 k2 k3 k4 k5 k6
    rw [show tagsCount "<sub:ProtocolNewSubjectRegistrationData>".data
          newOpS = 1 from by decide,
        show racePair "<sub:ProtocolNewSubjectRegistrationData>".data = 0
          from by decide] at k1
    rw [show tagsCount "</sub:ProtocolNewSubjectRegistrationData>".data
          newOpS = 1 from by decide,
        show racePair "</sub:ProtocolNewSubjectRegistrationData>".data = 0
          from by decide] at k2
    rw [show tagsCount "<sub:ProtocolExistingSubjectRegistrationData>".data
          newOpS = 0 from by decide,
        show racePair
          "<sub:ProtocolExistingSubjectRegistrationData>".data = 0
          from by decide] at k3
    rw [show tagsCount "</sub:ProtocolExistingSubjectRegistrationData>".data
          newOpS = 0 from by decide,
        show racePair
          "</sub:ProtocolExistingSubjectRegistrationData>".data = 0
          from by decide] at k4
    rw [show tagsCount "<SubjectNo>".data newOpS = 0 from by decide,
        show racePair "<SubjectNo>".data = 0 from by decide] at k5
    rw [show tagsCount "</SubjectNo>".data newOpS = 0 from by decide,
        show racePair "</SubjectNo>".data = 0 from by decide] at k6
    simp at k1 k2 k3 k4 k5 k6
    exact ⟨k1, k2, k3, k4, k5, k6⟩
  · have htn : truthyOptStr n = true := by
      rw [hns]
      simp [truthyOptStr, hsne]
    have k1 := occ_prepped_tags
      "<sub:ProtocolExistingSubjectRegistrationData>".data rd n
      (by decide) (by decide) (by decide) (by decide) (by decide) hS
    have k2 := occ_prepped_tags
      "</sub:ProtocolExistingSubjectRegistrationData>".data rd n
      (by decide) (by decide) (by decide) (by decide) (by decide) hS
    have k3 := occ_prepped_tags
      "<sub:ProtocolNewSubjectRegistrationData>".data rd n
      (by decide) (by decide) (by decide) (by decide) (by decide) hS
    have k4 := occ_prepped_tags
      "</sub:ProtocolNewSubjectRegistrationData>".data rd n
      (by decide) (by decide) (by decide) (by decide) (by decide) hS
    have k5 := occ_prepped_tags "<SubjectNo>".data rd n
      (by decide) (by decide) (by decide) (by decide) (by decide) hS
    have k6 := occ_prepped_tags "</SubjectNo>".data rd n
      (by decide) (by decide) (by decide) (by decide) (by decide) hS
    rw [opElement_existing n htn, htn] at k1 k2 k3 k4 k5 k6
    rw [show tagsCount "<sub:ProtocolExistingSubjectRegistrationData>".data
          existOpS = 1 from by decide,
        show subjPair
          "<sub:ProtocolExistingSubjectRegistrationData>".data = 0
          from by decide,
        show racePair
          "<sub:ProtocolExistingSubjectRegistrationData>".data = 0
          from by decide] at k1
    rw [show tagsCount "</sub:ProtocolExistingSubjectRegistrationData>".data
          existOpS = 1 from by decide,
        show subjPair
          "</sub:ProtocolExistingSubjectRegistrationData>".data = 0
          from by decide,
        show racePair
          "</sub:ProtocolExistingSubjectRegistrationData>".data = 0
          from by decide] at k2
    rw [show tagsCount "<sub:ProtocolNewSubjectRegistrationData>".data
          existOpS = 0 from by decide,
        show subjPair "<sub:ProtocolNewSubjectRegistrationData>".data = 0
          from by decide,
        show racePair "<sub:ProtocolNewSubjectRegistrationData>".data = 0
          from by decide] at k3
    rw [show tagsCount "</sub:ProtocolNewSubjectRegistrationData>".data
          existOpS = 0 from by decide,
        show subjPair "</sub:ProtocolNewSubjectRegistrationData>".data = 0
          from by decide,
        show racePair "</sub:ProtocolNewSubjectRegistrationData>".data = 0
          from by decide] at k4
    rw [show tagsCount "<SubjectNo>".data existOpS = 0 from by decide,
        show subjPair "<SubjectNo>".data = 1 from by decide,
        show racePair "<SubjectNo>".data = 0 from by decide] at k5
    rw [show tagsCount "</SubjectNo>".data existOpS = 0 from by decide,
        show subjPair "</SubjectNo>".data = 1 from by decide,
        show racePair "</SubjectNo>".data = 0 from by decide] at k6
    simp at k1 k2 k3 k4 k5 k6
    refine ⟨k1, k2, k3, k4, k5, k6, ?_⟩
    show 0 < occCount ("<SubjectNo>" ++ s ++ "</SubjectNo>").data
      (prepped rd n).data
    rw [prepped_data]
    refine Nat.lt_of_lt_of_le ?_ (occ_le_append_left _ _ _)
    refine Nat.lt_of_lt_of_le ?_ (occ_le_append_left _ _ _)
    refine Nat.lt_of_lt_of_le ?_ (occ_le_append_left _ _ _)
    refine Nat.lt_of_lt_of_le ?_ (occ_le_append_left _ _ _)
    refine Nat.lt_of_lt_of_le ?_ (occ_le_append_left _ _ _)
    refine Nat.lt_of_lt_of_le ?_ (occ_le_append_left _ _ _)
    refine Nat.lt_of_lt_of_le ?_ (occ_le_append_left _ _ _)
    refine Nat.lt_of_lt_of_le ?_ (occ_le_append_left _ _ _)
    refine Nat.lt_of_lt_of_le ?_ (occ_le_append_left _ _ _)
    rw [hns, subjectNumElement_existing s hsne]
    exact occ_pos_self_append _ _
      (wrapped_ne_nil "<SubjectNo>" "</SubjectNo>" s (by decide))

/-- Claim C1 counterexample to the unamended statement: (a) a validated
mapping called with the supplied but empty subject number `""` builds the
new-subject document with no `SubjectNo` element, because the code branches
on Python truthiness rather than on presence; (b) a validated mapping whose
`context` text is itself a `SubjectNo` element builds, with `subject_num`
omitted, a document that does contain a `SubjectNo` element, because values
are substituted without escaping. -/
theorem c1_operation_element_counterexample :
    verify_reg_data rdSane = true ∧
    register_subject_to_protocol rdSane (some "") true
      = .xmlOnly (prepped rdSane (some "")) ∧
    strOcc "<sub:ProtocolNewSubjectRegistrationData>"
      (prepped rdSane (some "")) = 1 ∧
    strOcc "<sub:ProtocolExistingSubjectRegistrationData>"
      (prepped rdSane (some "")) = 0 ∧
    strOcc "<SubjectNo>" (prepped rdSane (some "")) = 0 ∧
    verify_reg_data rdInjSubjectNo = true ∧
    strOcc "<SubjectNo>" (prepped rdInjSubjectNo none) = 1 := by
  refine ⟨by decide, by decide, by decide, by decide, by decide, by decide,
    by decide⟩

/-- Claim C1 witness: the amended statement at a sane mapping, with the
subject number `77` and with it omitted. -/
theorem c1_operation_element_witness :
    strOcc "<sub:ProtocolExistingSubjectRegistrationData>"
      (prepped rdSane (some "77")) = 1 ∧
    strOcc "<SubjectNo>" (prepped rdSane (some "77")) = 1 ∧
    0 < strOcc ("<SubjectNo>" ++ "77" ++ "</SubjectNo>")
      (prepped rdSane (some "77")) ∧
    strOcc "<sub:ProtocolNewSubjectRegistrationData>"
      (prepped rdSane none) = 1 ∧
    strOcc "<SubjectNo>" (prepped rdSane none) = 0 := by
  have hS77 : sanitizedFields rdSane (some "77") :=
    ⟨by decide, by decide, by decide, by decide, by decide, by decide,
     by decide, by decide, by decide, by decide,
     fun s h => by rw [← Option.some.inj h]; decide⟩
  have hSn : sanitizedFields rdSane none :=
    ⟨by decide, by decide, by decide, by decide, by decide, by decide,
     by decide, by decide, by decide, by decide,
     fun s h => by cases h⟩
  have h77 := (c1_operation_element rdSane (some "77") (by decide)
    hS77).2.2 "77" rfl (by decide)
  have hn := (c1_operation_element rdSane none (by decide) hSn).2.1 rfl
  exact ⟨h77.1, h77.2.2.2.2.1, h77.2.2.2.2.2.2, hn.1, hn.2.2.2.2.1⟩

/-- Claim C5 (amended): for every validated, pre-sanitized registration
mapping, the built XML contains exactly one `Race` element per races entry
(in list order and without deduplication: the race-elements text is the
per-entry concatenation `raceBlockL`, and it occurs contiguously in the
document); an empty races list serializes to no `Race` element text at all
— though an empty list is falsy and never passes validation, so no
document is ever built for one. -/
theorem c5_race_elements_per_entry (rd : RegData) (n : Option String)
    (hv : verify_reg_data rd = true) (hS : sanitizedFields rd n) :
    (race_elements (racesList rd)).data = raceBlockL (racesList rd) ∧
    strOcc "<Race>" (prepped rd n) = (racesList rd).length ∧
    strOcc "</Race>" (prepped rd n) = (racesList rd).length ∧
    0 < strOcc (race_elements (racesList rd)) (prepped rd n) ∧
    race_elements [] = "" := by
  have hqne : (race_elements (racesList rd)).data ≠ [] := by
    rw [race_elements_data]
    cases hl : racesList rd with
    | nil => exact absurd hl (racesList_ne_nil rd hv)
    | cons r rest => simp [raceBlockL]
  refine ⟨race_elements_data _, ?_, ?_, ?_, rfl⟩
  · have k := occ_prepped_const "<Race>".data rd n (by decide) (by decide)
      (by decide) (by decide) (by decide) hS 0 0 1 (by decide) (by decide)
      (by decide) (by decide)
    simpa using k
  · have k := occ_prepped_const "</Race>".data rd n (by decide) (by decide)
      (by decide) (by decide) (by decide) hS 0 0 1 (by decide) (by decide)
      (by decide) (by decide)
    simpa using k
  · show 0 < occCount (race_elements (racesList rd)).data
      (prepped rd n).data
    rw [prepped_data]
    refine Nat.lt_of_lt_of_le ?_ (occ_le_append_left _ _ _)
    refine Nat.lt_of_lt_of_le ?_ (occ_le_append_left _ _ _)
    refine Nat.lt_of_lt_of_le ?_ (occ_le_append_left _ _ _)
    refine Nat.lt_of_lt_of_le ?_ (occ_le_append_left _ _ _)
    refine Nat.lt_of_lt_of_le ?_ (occ_le_append_left _ _ _)
    refine Nat.lt_of_lt_of_le ?_ (occ_le_append_left _ _ _)
    refine Nat.lt_of_lt_of_le ?_ (occ_le_append_left _ _ _)
    refine Nat.lt_of_lt_of_le ?_ (occ_le_append_left _ _ _)
    refine Nat.lt_of_lt_of_le ?_ (occ_le_append_left _ _ _)
    refine Nat.lt_of_lt_of_le ?_ (occ_le_append_left _ _ _)
    refine Nat.lt_of_lt_of_le ?_ (occ_le_append_left _ _ _)
    exact occ_pos_self_append _ _ hqne

/-- Claim C5 counterexample to the unamended statement: a validated mapping
whose single races entry is itself a `Race` element yields a document with
two `Race` elements for the one entry, because entries are concatenated
without escaping. -/
theorem c5_race_elements_counterexample :
    verify_reg_data rdInjRace = true ∧
    racesList rdInjRace = ["<Race>A</Race>"] ∧
    strOcc "<Race>" (prepped rdInjRace none) = 2 ∧
    strOcc "</Race>" (prepped rdInjRace none) = 2 := by
  refine ⟨by decide, by decide, by decide, by decide⟩

/-- Claim C5 witness: the amended statement at a sane mapping with one
race. -/
theorem c5_race_elements_per_entry_witness :
    strOcc "<Race>" (prepped rdSane none) = 1 ∧
    strOcc "</Race>" (prepped rdSane none) = 1 ∧
    0 < strOcc (race_elements (racesList rdSane)) (prepped rdSane none) := by
  have hSn : sanitizedFields rdSane none :=
    ⟨by decide, by decide, by decide, by decide, by decide, by decide,
     by decide, by decide, by decide, by decide, fun s h => by cases h⟩
  have h := c5_race_elements_per_entry rdSane none (by decide) hSn
  exact ⟨h.2.1.trans (by decide), h.2.2.1.trans (by decide), h.2.2.2.1⟩

/-- Claim C8 (amended): for every validated, pre-sanitized registration
mapping, `register_subject_to_protocol` with `xml_only` returns the built
document without reaching the network call, and parsing that document back
yields the expected element values at their expected paths: for every
field, its open and close tags occur exactly once, the document contains
the open tag, the substituted value and the close tag contiguously, and
reading the element content back (`extractBetween`) returns exactly the
substituted value; races appear as one `Race` element per list entry with
the race-elements text contiguous. -/
theorem c8_xml_only_round_trip (rd : RegData) (n : Option String)
    (hv : verify_reg_data rd = true) (hS : sanitizedFields rd n) :
    register_subject_to_protocol rd n true = .xmlOnly (prepped rd n) ∧
    (strOcc "<Context>" (prepped rd n) = 1 ∧
     strOcc "</Context>" (prepped rd n) = 1 ∧
     0 < strOcc ("<Context>" ++ fieldText rd "context" ++ "</Context>")
       (prepped rd n) ∧
     extractBetween "<Context>" "</Context>" (prepped rd n)
       = some (fieldText rd "context")) ∧
    (strOcc "<ProtocolNo>" (prepped rd n) = 1 ∧
     strOcc "</ProtocolNo>" (prepped rd n) = 1 ∧
     0 < strOcc
       ("<ProtocolNo>" ++ fieldText rd "protocol-num" ++ "</ProtocolNo>")
       (prepped rd n) ∧
     extractBetween "<ProtocolNo>" "</ProtocolNo>" (prepped rd n)
       = some (fieldText rd "protocol-num")) ∧
    (strOcc "<StudySite>" (prepped rd n) = 1 ∧
     strOcc "</StudySite>" (prepped rd n) = 1 ∧
     0 < strOcc
       ("<StudySite>" ++ fieldText rd "study-site" ++ "</StudySite>")
       (prepped rd n) ∧
     extractBetween "<StudySite>" "</StudySite>" (prepped rd n)
       = some (fieldText rd "study-site")) ∧
    (strOcc "<PrimaryIdentifier>" (prepped rd n) = 1 ∧
     strOcc "</PrimaryIdentifier>" (prepped rd n) = 1 ∧
     0 < strOcc ("<PrimaryIdentifier>" ++
         fieldText rd "primary-identifier" ++ "</PrimaryIdentifier>")
       (prepped rd n) ∧
     extractBetween "<PrimaryIdentifier>" "</PrimaryIdentifier>"
       (prepped rd n) = some (fieldText rd "primary-identifier")) ∧
    (strOcc "<LastName>" (prepped rd n) = 1 ∧
     strOcc "</LastName>" (prepped rd n) = 1 ∧
     0 < strOcc ("<LastName>" ++ fieldText rd "last-name" ++ "</LastName>")
       (prepped rd n) ∧
     extractBetween "<LastName>" "</LastName>" (prepped rd n)
       = some (fieldText rd "last-name")) ∧
    (strOcc "<FirstName>" (prepped rd n) = 1 ∧
     strOcc "</FirstName>" (prepped rd n) = 1 ∧
     0 < strOcc
       ("<FirstName>" ++ fieldText rd "first-name" ++ "</FirstName>")
       (prepped rd n) ∧
     extractBetween "<FirstName>" "</FirstName>" (prepped rd n)
       = some (fieldText rd "first-name")) ∧
    (strOcc "<BirthDate>" (prepped rd n) = 1 ∧
     strOcc "</BirthDate>" (prepped rd n) = 1 ∧
     0 < strOcc ("<BirthDate>" ++ fieldText rd "birthdate" ++ "</BirthDate>")
       (prepped rd n) ∧
     extractBetween "<BirthDate>" "</BirthDate>" (prepped rd n)
       = some (fieldText rd "birthdate")) ∧
    (strOcc "<Gender>" (prepped rd n) = 1 ∧
     strOcc "</Gender>" (prepped rd n) = 1 ∧
     0 < strOcc ("<Gender>" ++ fieldText rd "gender" ++ "</Gender>")
       (prepped rd n) ∧
     extractBetween "<Gender>" "</Gender>" (prepped rd n)
       = some (fieldText rd "gender")) ∧
    (strOcc "<Ethnicity>" (prepped rd n) = 1 ∧
     strOcc "</Ethnicity>" (prepped rd n) = 1 ∧
     0 < strOcc ("<Ethnicity>" ++ fieldText rd "ethnicity" ++ "</Ethnicity>")
       (prepped rd n) ∧
     extractBetween "<Ethnicity>" "</Ethnicity>" (prepped rd n)
       = some (fieldText rd "ethnicity")) ∧
    (strOcc "<Race>" (prepped rd n) = (racesList rd).length ∧
     0 < strOcc (race_elements (racesList rd)) (prepped rd n)) := by
  have hqne : (race_elements (racesList rd)).data ≠ [] := by
    rw [race_elements_data]
    cases hl : racesList rd with
    | nil => exact absurd hl (racesList_ne_nil rd hv)
    | cons r rest => simp [raceBlockL]
  have ho1 : occCount "<Context>".data (prepped rd n).data = 1 := by
    simpa using occ_prepped_const "<Context>".data rd n (by decide)
      (by decide) (by decide) (by decide) (by decide) hS 1 0 0 (by decide)
      (by decide) (by decide) (by decide)
  have hc1 : occCount "</Context>".data (prepped rd n).data = 1 := by
    simpa using occ_prepped_const "</Context>".data rd n (by decide)
      (by decide) (by decide) (by decide) (by decide) hS 1 0 0 (by decide)
      (by decide) (by decide) (by decide)
  have hw1 : 0 < occCount
      ("<Context>" ++ fieldText rd "context" ++ "</Context>").data
      (prepped rd n).data := by
    rw [prepped_data]
    simp only [String.data_append, List.append_assoc]
    iterate 2 refine Nat.lt_of_lt_of_le ?_ (occ_le_append_left _ _ _)
    rw [show tpl2.data =
      (">\n         <sub:ProtocolSubjectRegistrationData>\n            ").data
        ++ "<Context>".data from by decide, List.append_assoc]
    refine Nat.lt_of_lt_of_le ?_ (occ_le_append_left _ _ _)
    rw [show tpl3.data = "</Context>".data ++
      ("\n            <ProtocolSubject>\n               <ProtocolNo>").data
      from by decide, List.append_assoc]
    exact occ_pos_field "<Context>" "</Context>" (fieldText rd "context")
      _ _ (by decide)
  have he1 := extractBetween_of_counts "<Context>" "</Context>"
    (fieldText rd "context") (prepped rd n) (by decide) (by decide)
    ho1 hc1 hw1
  have ho2 : occCount "<ProtocolNo>".data (prepped rd n).data = 1 := by
    simpa using occ_prepped_const "<ProtocolNo>".data rd n (by decide)
      (by decide) (by decide) (by decide) (by decide) hS 1 0 0 (by decide)
      (by decide) (by decide) (by decide)
  have hc2 : occCount "</ProtocolNo>".data (prepped rd n).data = 1 := by
    simpa using occ_prepped_const "</ProtocolNo>".data rd n (by decide)
      (by decide) (by decide) (by decide) (by decide) hS 1 0 0 (by decide)
      (by decide) (by decide) (by decide)
  have hw2 : 0 < occCount
      ("<ProtocolNo>" ++ fieldText rd "protocol-num" ++ "</ProtocolNo>").data
      (prepped rd n).data := by
    rw [prepped_data]
    simp only [String.data_append, List.append_assoc]
    iterate 4 refine Nat.lt_of_lt_of_le ?_ (occ_le_append_left _ _ _)
    rw [show tpl3.data =
      ("</Context>\n            <ProtocolSubject>\n               ").data
        ++ "<ProtocolNo>".data from by decide, List.append_assoc]
    refine Nat.lt_of_lt_of_le ?_ (occ_le_append_left _ _ _)
    rw [show tpl4.data = "</ProtocolNo>".data ++
      ("\n               <StudySite>").data from by decide,
      List.append_assoc]
    exact occ_pos_field "<ProtocolNo>" "</ProtocolNo>"
      (fieldText rd "protocol-num") _ _ (by decide)
  have he2 := extractBetween_of_counts "<ProtocolNo>" "</ProtocolNo>"
    (fieldText rd "protocol-num") (prepped rd n) (by decide) (by decide)
    ho2 hc2 hw2
  have ho3 : occCount "<StudySite>".data (prepped rd n).data = 1 := by
    simpa using occ_prepped_const "<StudySite>".data rd n (by decide)
      (by decide) (by decide) (by decide) (by decide) hS 1 0 0 (by decide)
      (by decide) (by decide) (by decide)
  have hc3 : occCount "</StudySite>".data (prepped rd n).data = 1 := by
    simpa using occ_prepped_const "</StudySite>".data rd n (by decide)
      (by decide) (by decide) (by decide) (by decide) hS 1 0 0 (by decide)
      (by decide) (by decide) (by decide)
  have hw3 : 0 < occCount
      ("<StudySite>" ++ fieldText rd "study-site" ++ "</StudySite>").data
      (prepped rd n).data := by
    rw [prepped_data]
    simp only [String.data_append, List.append_assoc]
    iterate 6 refine Nat.lt_of_lt_of_le ?_ (occ_le_append_left _ _ _)
    rw [show tpl4.data = ("</ProtocolNo>\n               ").data
        ++ "<StudySite>".data from by decide, List.append_assoc]
    refine Nat.lt_of_lt_of_le ?_ (occ_le_append_left _ _ _)
    rw [show tpl5.data = "</StudySite>".data ++
      ("\n               <Subject>\n                  <PrimaryIdentifier>").data
      from by decide, List.append_assoc]
    exact occ_pos_field "<StudySite>" "</StudySite>"
      (fieldText rd "study-site") _ _ (by decide)
  have he3 := extractBetween_of_counts "<StudySite>" "</StudySite>"
    (fieldText rd "study-site") (prepped rd n) (by decide) (by decide)
    ho3 hc3 hw3
  have ho4 : occCount "<PrimaryIdentifier>".data (prepped rd n).data = 1 := by
    simpa using occ_prepped_const "<PrimaryIdentifier>".data rd n
      (by decide) (by decide) (by decide) (by decide) (by decide) hS 1 0 0
      (by decide) (by decide) (by decide) (by decide)
  have hc4 : occCount "</PrimaryIdentifier>".data (prepped rd n).data = 1 := by
    simpa using occ_prepped_const "</PrimaryIdentifier>".data rd n
      (by decide) (by decide) (by decide) (by decide) (by decide) hS 1 0 0
      (by decide) (by decide) (by decide) (by decide)
  have hw4 : 0 < occCount ("<PrimaryIdentifier>" ++
      fieldText rd "primary-identifier" ++ "</PrimaryIdentifier>").data
      (prepped rd n).data := by
    rw [prepped_data]
    simp only [String.data_append, List.append_assoc]
    iterate 8 refine Nat.lt_of_lt_of_le ?_ (occ_le_append_left _ _ _)
    rw [show tpl5.data =
      ("</StudySite>\n               <Subject>\n                  ").data
        ++ "<PrimaryIdentifier>".data from by decide, List.append_assoc]
    refine Nat.lt_of_lt_of_le ?_ (occ_le_append_left _ _ _)
    rw [show tpl6.data = "</PrimaryIdentifier>".data ++
      ("\n                  ").data from by decide, List.append_assoc]
    exact occ_pos_field "<PrimaryIdentifier>" "</PrimaryIdentifier>"
      (fieldText rd "primary-identifier") _ _ (by decide)
  have he4 := extractBetween_of_counts "<PrimaryIdentifier>"
    "</PrimaryIdentifier>" (fieldText rd "primary-identifier")
    (prepped rd n) (by decide) (by decide) ho4 hc4 hw4
  have ho5 : occCount "<LastName>".data (prepped rd n).data = 1 := by
    simpa using occ_prepped_const "<LastName>".data rd n (by decide)
      (by decide) (by decide) (by decide) (by decide) hS 1 0 0 (by decide)
      (by decide) (by decide) (by decide)
  have hc5 : occCount "</LastName>".data (prepped rd n).data = 1 := by
    simpa using occ_prepped_const "</LastName>".data rd n (by decide)
      (by decide) (by decide) (by decide) (by decide) hS 1 0 0 (by decide)
      (by decide) (by decide) (by decide)
  have hw5 : 0 < occCount
      ("<LastName>" ++ fieldText rd "last-name" ++ "</LastName>").data
      (prepped rd n).data := by
    rw [prepped_data]
    simp only [String.data_append, List.append_assoc]
    iterate 14 refine Nat.lt_of_lt_of_le ?_ (occ_le_append_left _ _ _)
    rw [show tpl8.data = ("\n                  ").data
        ++ "<LastName>".data from by decide, List.append_assoc]
    refine Nat.lt_of_lt_of_le ?_ (occ_le_append_left _ _ _)
    rw [show tpl9.data = "</LastName>".data ++
      ("\n                  <FirstName>").data from by decide,
      List.append_assoc]
    exact occ_pos_field "<LastName>" "</LastName>"
      (fieldText rd "last-name") _ _ (by decide)
  have he5 := extractBetween_of_counts "<LastName>" "</LastName>"
    (fieldText rd "last-name") (prepped rd n) (by decide) (by decide)
    ho5 hc5 hw5
  have ho6 : occCount "<FirstName>".data (prepped rd n).data = 1 := by
    simpa using occ_prepped_const "<FirstName>".data rd n (by decide)
      (by decide) (by decide) (by decide) (by decide) hS 1 0 0 (by decide)
      (by decide) (by decide) (by decide)
  have hc6 : occCount "</FirstName>".data (prepped rd n).data = 1 := by
    simpa using occ_prepped_const "</FirstName>".data rd n (by decide)
      (by decide) (by decide) (by decide) (by decide) hS 1 0 0 (by decide)
      (by decide) (by decide) (by decide)
  have hw6 : 0 < occCount
      ("<FirstName>" ++ fieldText rd "first-name" ++ "</FirstName>").data
      (prepped rd n).data := by
    rw [prepped_data]
    simp only [String.data_append, List.append_assoc]
    iterate 16 refine Nat.lt_of_lt_of_le ?_ (occ_le_append_left _ _ _)
    rw [show tpl9.data = ("</LastName>\n                  ").data
        ++ "<FirstName>".data from by decide, List.append_assoc]
    refine Nat.lt_of_lt_of_le ?_ (occ_le_append_left _ _ _)
    rw [show tpl10.data = "</FirstName>".data ++
      ("\n                  <BirthDate>").data from by decide,
      List.append_assoc]
    exact occ_pos_field "<FirstName>" "</FirstName>"
      (fieldText rd "first-name") _ _ (by decide)
  have he6 := extractBetween_of_counts "<FirstName>" "</FirstName>"
    (fieldText rd "first-name") (prepped rd n) (by decide) (by decide)
    ho6 hc6 hw6
  have ho7 : occCount "<BirthDate>".data (prepped rd n).data = 1 := by
    simpa using occ_prepped_const "<BirthDate>".data rd n (by decide)
      (by decide) (by decide) (by decide) (by decide) hS 1 0 0 (by decide)
      (by decide) (by decide) (by decide)
  have hc7 : occCount "</BirthDate>".data (prepped rd n).data = 1 := by
    simpa using occ_prepped_const "</BirthDate>".data rd n (by decide)
      (by decide) (by decide) (by decide) (by decide) hS 1 0 0 (by decide)
      (by decide) (by decide) (by decide)
  have hw7 : 0 < occCount
      ("<BirthDate>" ++ fieldText rd "birthdate" ++ "</BirthDate>").data
      (prepped rd n).data := by
    rw [prepped_data]
    simp only [String.data_append, List.append_assoc]
    iterate 18 refine Nat.lt_of_lt_of_le ?_ (occ_le_append_left _ _ _)
    rw [show tpl10.data = ("</FirstName>\n                  ").data
        ++ "<BirthDate>".data from by decide, List.append_assoc]
    refine Nat.lt_of_lt_of_le ?_ (occ_le_append_left _ _ _)
    rw [show tpl11.data = "</BirthDate>".data ++
      ("\n                  <Gender>").data from by decide,
      List.append_assoc]
    exact occ_pos_field "<BirthDate>" "</BirthDate>"
      (fieldText rd "birthdate") _ _ (by decide)
  have he7 := extractBetween_of_counts "<BirthDate>" "</BirthDate>"
    (fieldText rd "birthdate") (prepped rd n) (by decide) (by decide)
    ho7 hc7 hw7
  have ho8 : occCount "<Gender>".data (prepped rd n).data = 1 := by
    simpa using occ_prepped_const "<Gender>".data rd n (by decide)
      (by decide) (by decide) (by decide) (by decide) hS 1 0 0 (by decide)
      (by decide) (by decide) (by decide)
  have hc8 : occCount "</Gender>".data (prepped rd n).data = 1 := by
    simpa using occ_prepped_const "</Gender>".data rd n (by decide)
      (by decide) (by decide) (by decide) (by decide) hS 1 0 0 (by decide)
      (by decide) (by decide) (by decide)
  have hw8 : 0 < occCount
      ("<Gender>" ++ fieldText rd "gender" ++ "</Gender>").data
      (prepped rd n).data := by
    rw [prepped_data]
    simp only [String.data_append, List.append_assoc]
    iterate 20 refine Nat.lt_of_lt_of_le ?_ (occ_le_append_left _ _ _)
    rw [show tpl11.data = ("</BirthDate>\n                  ").data
        ++ "<Gender>".data from by decide, List.append_assoc]
    refine Nat.lt_of_lt_of_le ?_ (occ_le_append_left _ _ _)
    rw [show tpl12.data = "</Gender>".data ++
      ("\n                  <Ethnicity>").data from by decide,
      List.append_assoc]
    exact occ_pos_field "<Gender>" "</Gender>" (fieldText rd "gender")
      _ _ (by decide)
  have he8 := extractBetween_of_counts "<Gender>" "</Gender>"
    (fieldText rd "gender") (prepped rd n) (by decide) (by decide)
    ho8 hc8 hw8
  have ho9 : occCount "<Ethnicity>".data (prepped rd n).data = 1 := by
    simpa using occ_prepped_const "<Ethnicity>".data rd n (by decide)
      (by decide) (by decide) (by decide) (by decide) hS 1 0 0 (by decide)
      (by decide) (by decide) (by decide)
  have hc9 : occCount "</Ethnicity>".data (prepped rd n).data = 1 := by
    simpa using occ_prepped_const "</Ethnicity>".data rd n (by decide)
      (by decide) (by decide) (by decide) (by decide) hS 1 0 0 (by decide)
      (by decide) (by decide) (by decide)
  have hw9 : 0 < occCount
      ("<Ethnicity>" ++ fieldText rd "ethnicity" ++ "</Ethnicity>").data
      (prepped rd n).data := by
    rw [prepped_data]
    simp only [String.data_append, List.append_assoc]
    iterate 22 refine Nat.lt_of_lt_of_le ?_ (occ_le_append_left _ _ _)
    rw [show tpl12.data = ("</Gender>\n                  ").data
        ++ "<Ethnicity>".data from by decide, List.append_assoc]
    refine Nat.lt_of_lt_of_le ?_ (occ_le_append_left _ _ _)
    rw [show tpl13.data = "</Ethnicity>".data ++
      ("\n               </Subject>\n            </ProtocolSubject>\n         </sub:ProtocolSubjectRegistrationData>\n      </sub:").data
      from by decide, List.append_assoc]
    exact occ_pos_field "<Ethnicity>" "</Ethnicity>"
      (fieldText rd "ethnicity") _ _ (by decide)
  have he9 := extractBetween_of_counts "<Ethnicity>" "</Ethnicity>"
    (fieldText rd "ethnicity") (prepped rd n) (by decide) (by decide)
    ho9 hc9 hw9
  have hra : occCount "<Race>".data (prepped rd n).data
      = (racesList rd).length := by
    simpa using occ_prepped_const "<Race>".data rd n (by decide)
      (by decide) (by decide) (by decide) (by decide) hS 0 0 1 (by decide)
      (by decide) (by decide) (by decide)
  have hrb : 0 < occCount (race_elements (racesList rd)).data
      (prepped rd n).data := by
    rw [prepped_data]
    simp only [String.data_append, List.append_assoc]
    iterate 13 refine Nat.lt_of_lt_of_le ?_ (occ_le_append_left _ _ _)
    exact occ_pos_self_append _ _ hqne
  exact ⟨by simp [register_subject_to_protocol, hv],
    ⟨ho1, hc1, hw1, he1⟩, ⟨ho2, hc2, hw2, he2⟩, ⟨ho3, hc3, hw3, he3⟩,
    ⟨ho4, hc4, hw4, he4⟩, ⟨ho5, hc5, hw5, he5⟩, ⟨ho6, hc6, hw6, he6⟩,
    ⟨ho7, hc7, hw7, he7⟩, ⟨ho8, hc8, hw8, he8⟩, ⟨ho9, hc9, hw9, he9⟩,
    ⟨hra, hrb⟩⟩

/-- Claim C8 counterexample to the unamended statement: a validated mapping
whose `protocol-num` text is itself a `Context` element yields a document
with two `Context` elements, so the expected path is not unique; and a
validated mapping whose `context` text closes its own element yields a
document from which parsing the `Context` element back returns `A` instead
of the substituted value. -/
theorem c8_xml_only_round_trip_counterexample :
    verify_reg_data rdInjContext = true ∧
    register_subject_to_protocol rdInjContext none true
      = .xmlOnly (prepped rdInjContext none) ∧
    fieldText rdInjContext "context" = "CTX" ∧
    strOcc "<Context>" (prepped rdInjContext none) = 2 ∧
    strOcc "</Context>" (prepped rdInjContext none) = 2 ∧
    verify_reg_data rdInjCloseTag = true ∧
    fieldText rdInjCloseTag "context" = "A</Context><Context>B" ∧
    strOcc "<Context>" (prepped rdInjCloseTag none) = 2 ∧
    extractBetween "<Context>" "</Context>" (prepped rdInjCloseTag none)
      = some "A" := by
  refine ⟨by decide, by decide, by decide, by decide, by decide, by decide,
    by decide, by decide, by decide⟩

/-- Claim C8 witness: the amended statement at a sane mapping with
`xml_only` and no subject number; parsing the context back returns the
substituted value. -/
theorem c8_xml_only_round_trip_witness :
    register_subject_to_protocol rdSane none true
      = .xmlOnly (prepped rdSane none) ∧
    strOcc "<Context>" (prepped rdSane none) = 1 ∧
    0 < strOcc ("<Context>" ++ fieldText rdSane "context" ++ "</Context>")
      (prepped rdSane none) ∧
    extractBetween "<Context>" "</Context>" (prepped rdSane none)
      = some "CTX" ∧
    strOcc "<Gender>" (prepped rdSane none) = 1 ∧
    0 < strOcc (race_elements (racesList rdSane)) (prepped rdSane none) := by
  have hSn : sanitizedFields rdSane none :=
    ⟨by decide, by decide, by decide, by decide, by decide, by decide,
     by decide, by decide, by decide, by decide, fun s h => by cases h⟩
  have h := c8_xml_only_round_trip rdSane none (by decide) hSn
  exact ⟨h.1, h.2.1.1, h.2.1.2.2.1, h.2.1.2.2.2.trans (by decide),
    h.2.2.2.2.2.2.2.2.1.1, h.2.2.2.2.2.2.2.2.2.2.2⟩

end Oncorelib
